import Mathlib

/-!
Verification of the Zevia2048 board engine (`js/game.js`), the animation
scheduler delay computation (`js/ui.js`), and the leaderboard storage
update (backend server), via a shallow embedding in Lean.

The board is the JS array `this.board`: 16 cells, each `null` or a
flavor-kind index.  We model it as `List (Option Nat)`; reading a cell
uses `getD` (out-of-range reads yield `none`, matching `undefined`
coerced through the `=== null` checks only where the source indexes in
range).
-/

namespace Zevia

/-- A board: the JS `this.board` array of 16 nullable kind indices. -/
abbrev Board := List (Option Nat)

/-- Read `board[i]`. -/
def cell (b : Board) (i : Nat) : Option Nat := b.getD i none

/-- One record of `animationMetadata.merges`: the JS object
`{ from: [a, b], to }` together with the merged value the code wrote at
`to` (`mergedValue = current.value + 1` in `processLine`). -/
structure MergeRec where
  src : Nat × Nat
  dst : Nat
  newKind : Nat
deriving DecidableEq, Repr

/-- Output of one `processLine` compaction pass over a line:
the compacted values (`result` before null-padding), the score delta,
the additions to `movedTiles` / `mergedTiles`, and the
`animationMetadata.moves` / `.merges` records pushed. -/
structure LineOut where
  vals : List Nat
  score : Nat
  movedT : List Nat
  mergedT : List Nat
  movs : List (Nat × Nat)
  mergs : List MergeRec
deriving DecidableEq, Repr

/-- The `while (read < entries.length)` loop of `Game.processLine`:
`entries` are the line's non-null `(value, from)` pairs in reading
order, `targets` the line's board indices (`indices[write]` is the
head as `write` advances).  A pair of equal adjacent entries merges
into `value + 1` (read advances 2); otherwise the entry is copied
(read advances 1).  `movedTiles` is a JS `Set`, so within the merge
branch the target is recorded once even when both origins moved. -/
def collapse : List (Nat × Nat) → List Nat → LineOut
  | [], _ => ⟨[], 0, [], [], [], []⟩
  | (v, f) :: rest, targets =>
    let t := targets.headD 0
    match rest with
    | (v2, f2) :: rest2 =>
      if v2 = v then
        let o := collapse rest2 targets.tail
        ⟨(v + 1) :: o.vals,
         2 ^ (v + 1) + o.score,
         (if f ≠ t ∨ f2 ≠ t then [t] else []) ++ o.movedT,
         t :: o.mergedT,
         ((if f ≠ t then [(f, t)] else []) ++ (if f2 ≠ t then [(f2, t)] else [])) ++ o.movs,
         ⟨(f, f2), t, v + 1⟩ :: o.mergs⟩
      else
        let o := collapse ((v2, f2) :: rest2) targets.tail
        ⟨v :: o.vals,
         o.score,
         (if f ≠ t then [t] else []) ++ o.movedT,
         o.mergedT,
         (if f ≠ t then [(f, t)] else []) ++ o.movs,
         o.mergs⟩
    | [] =>
      let o := collapse [] targets.tail
      ⟨v :: o.vals,
       o.score,
       (if f ≠ t then [t] else []) ++ o.movedT,
       o.mergedT,
       (if f ≠ t then [(f, t)] else []) ++ o.movs,
       o.mergs⟩

/-- `processLine`'s `entries`: map each board index of the line to
`{value, from}` and drop the nulls. -/
def lineEntries (b : Board) (idxs : List Nat) : List (Nat × Nat) :=
  idxs.filterMap (fun i => (cell b i).map (fun v => (v, i)))

/-- The write-back loop of `processLine`:
`for (i = 0..3) board[indices[i]] = result[i]`, where `result` is the
compacted values padded with `null`. -/
def writeLine : Board → List Nat → List Nat → Board
  | b, [], _ => b
  | b, i :: is, [] => writeLine (b.set i none) is []
  | b, i :: is, v :: vs => writeLine (b.set i (some v)) is vs

/-- The engine state (`class Game`), restricted to the fields the
verified operations touch.  `metaMoves`/`metaMerges` are
`animationMetadata.moves`/`.merges`. -/
structure Game where
  board : Board
  score : Nat
  moves : Nat
  gameOver : Bool
  won : Bool
  winModalShown : Bool
  movedTiles : List Nat
  mergedTiles : List Nat
  newTile : Option Nat
  boardBefore : Board
  boardAfterMove : Board
  metaMoves : List (Nat × Nat)
  metaMerges : List MergeRec
deriving DecidableEq, Repr

/-- `Game.processLine(indices)` as a state transformer. -/
def processLineG (g : Game) (idxs : List Nat) : Game :=
  let o := collapse (lineEntries g.board idxs) idxs
  { g with
    board := writeLine g.board idxs o.vals,
    score := g.score + o.score,
    movedTiles := g.movedTiles ++ o.movedT,
    mergedTiles := g.mergedTiles ++ o.mergedT,
    metaMoves := g.metaMoves ++ o.movs,
    metaMerges := g.metaMerges ++ o.mergs }

/-- Process the four lines of a direction in order (the `for` loops of
`moveLeft` / `moveRight` / `moveUp` / `moveDown`). -/
def runLines (g : Game) (ls : List (List Nat)) : Game :=
  ls.foldl processLineG g

/-- Line index lists for `moveLeft`. -/
def leftLines : List (List Nat) :=
  [[0, 1, 2, 3], [4, 5, 6, 7], [8, 9, 10, 11], [12, 13, 14, 15]]

/-- Line index lists for `moveRight`. -/
def rightLines : List (List Nat) :=
  [[3, 2, 1, 0], [7, 6, 5, 4], [11, 10, 9, 8], [15, 14, 13, 12]]

/-- Line index lists for `moveUp`. -/
def upLines : List (List Nat) :=
  [[0, 4, 8, 12], [1, 5, 9, 13], [2, 6, 10, 14], [3, 7, 11, 15]]

/-- Line index lists for `moveDown`. -/
def downLines : List (List Nat) :=
  [[12, 8, 4, 0], [13, 9, 5, 1], [14, 10, 6, 2], [15, 11, 7, 3]]

/-- `Game.addNewTile` with the randomness made explicit: `pick`
selects among the empty cells (`Math.floor(Math.random()*len)` ranges
over `0..len-1`, modelled as `pick % len`) and `isRare` is
`Math.random() < 0.1`.  Returns the updated board and the chosen index
(`null` when the board has no empty cell). -/
def emptyIndices (b : Board) : List Nat :=
  (List.range b.length).filter (fun i => cell b i = none)

def addNewTile (pick : Nat) (isRare : Bool) (b : Board) : Board × Option Nat :=
  let empt := emptyIndices b
  if empt = [] then (b, none)
  else
    let idx := empt.getD (pick % empt.length) 0
    (b.set idx (some (if isRare then 1 else 0)), some idx)

/-- `Game.boardsEqual`: cell-by-cell comparison over indices `0..15`. -/
def boardsEqual (a b : Board) : Bool :=
  (List.range 16).all (fun i => cell a i = cell b i)

/-- `Game.canMove`: an empty cell, or an equal horizontal or vertical
neighbour (the JS `===` compares the nullable cell values directly). -/
def canMove (b : Board) : Bool :=
  b.contains none ||
  (List.range 4).any (fun i => (List.range 4).any (fun j =>
    (decide (j < 3) && decide (cell b (i * 4 + j) = cell b (i * 4 + j + 1))) ||
    (decide (i < 3) && decide (cell b (i * 4 + j) = cell b (i * 4 + j + 4)))))

/-- `Game.checkGameStatus`: set `won` when kind 10 (Ginger Root Beer)
is on the board; set `gameOver` when no move is available. -/
def checkGameStatus (g : Game) : Game :=
  let g1 := if g.board.contains (some 10) then { g with won := true } else g
  if canMove g1.board then g1 else { g1 with gameOver := true }

/-- The scratch-state initialisation at the top of `Game.move`:
clear `movedTiles` / `mergedTiles`, snapshot `boardBefore` /
`boardAfterMove`, reset `animationMetadata` and `newTile`. -/
def clearScratch (g : Game) : Game :=
  { g with
    movedTiles := [],
    mergedTiles := [],
    boardBefore := g.board,
    boardAfterMove := g.board,
    metaMoves := [],
    metaMerges := [],
    newTile := none }

/-- The direction dispatch of `Game.move`; `none` for an invalid
direction string (the JS `else return false`). -/
def applyDir (dir : String) (g : Game) : Option Game :=
  if dir = "left" then some (runLines g leftLines)
  else if dir = "right" then some (runLines g rightLines)
  else if dir = "up" then some (runLines g upLines)
  else if dir = "down" then some (runLines g downLines)
  else none

/-- `Game.move(direction)`: returns the new state and the JS return
value.  The spawn randomness of the `addNewTile` call is passed in as
`pick` / `isRare`. -/
def move (dir : String) (pick : Nat) (isRare : Bool) (g : Game) : Game × Bool :=
  if g.gameOver then (g, false)
  else
    let g1 := clearScratch g
    match applyDir dir g1 with
    | none => (g1, false)
    | some g2 =>
      if boardsEqual g1.boardBefore g2.board then (g2, false)
      else
        let s := addNewTile pick isRare g2.board
        let g3 := { g2 with
          boardAfterMove := g2.board,
          moves := g2.moves + 1,
          board := s.fst,
          newTile := s.snd }
        (checkGameStatus g3, true)

/-- `Game.initBoard`: 16 nulls, then two `addNewTile` calls. -/
def emptyBoard : Board := List.replicate 16 none

def initBoard (p1 : Nat) (r1 : Bool) (p2 : Nat) (r2 : Bool) : Board :=
  (addNewTile p2 r2 (addNewTile p1 r1 emptyBoard).fst).fst

/-- A freshly constructed `Game` (constructor + `initBoard`). -/
def newGame (p1 : Nat) (r1 : Bool) (p2 : Nat) (r2 : Bool) : Game :=
  { board := initBoard p1 r1 p2 r2
    score := 0
    moves := 0
    gameOver := false
    won := false
    winModalShown := false
    movedTiles := []
    mergedTiles := []
    newTile := none
    boardBefore := []
    boardAfterMove := []
    metaMoves := []
    metaMerges := [] }

/-- `Game.reset`: clear everything, then re-run the two-tile init. -/
def resetG (p1 : Nat) (r1 : Bool) (p2 : Nat) (r2 : Bool) (_g : Game) : Game :=
  newGame p1 r1 p2 r2

/-- A bare engine state with a given board and everything else at its
constructor defaults, used to build concrete test states. -/
def mkTestGame (b : Board) : Game :=
  { board := b
    score := 0
    moves := 0
    gameOver := false
    won := false
    winModalShown := false
    movedTiles := []
    mergedTiles := []
    newTile := none
    boardBefore := []
    boardAfterMove := []
    metaMoves := []
    metaMerges := [] }

/-- The four line decompositions used by the four directions. -/
def allDirLines : List (List (List Nat)) :=
  [leftLines, rightLines, upLines, downLines]

/-! ### The animation scheduler delay computation (`UI.render`) -/

/-- `const SLIDE_MS = 140`. -/
def SLIDE_MS : Nat := 140

/-- `const CONTACT_HOLD_MS = 10`. -/
def CONTACT_HOLD_MS : Nat := 10

/-- `const MERGE_MS = 145`. -/
def MERGE_MS : Nat := 145

/-- `Math.round(MERGE_MS * 0.12)`: the spawn offset into the merge
window.  `145 * 0.12` rounds to 17 both in floats and in this exact
rational rounding. -/
def MERGE_SPAWN_OFFSET : Nat := (MERGE_MS * 12 + 50) / 100

/-- `slideCompleteDelay = hasSlides ? SLIDE_MS + (hasMerges ? CONTACT_HOLD_MS : 0) : 0`. -/
def slideCompleteDelay (hasSlides hasMerges : Bool) : Nat :=
  if hasSlides then SLIDE_MS + (if hasMerges then CONTACT_HOLD_MS else 0) else 0

/-- `spawnDelay = hasMerges ? slideCompleteDelay + Math.round(MERGE_MS*0.12) : slideCompleteDelay`. -/
def spawnDelay (hasSlides hasMerges : Bool) : Nat :=
  if hasMerges then slideCompleteDelay hasSlides hasMerges + MERGE_SPAWN_OFFSET
  else slideCompleteDelay hasSlides hasMerges

/-- `Math.random() < 0.1` in `addNewTile`, with the uniform draw `r`
made explicit as a rational in `[0, 1)`. -/
def isRareDraw (r : ℚ) : Bool := decide (r < 1 / 10)

/-! ### The leaderboard service storage update (backend `server.mjs`) -/

/-- One stored leaderboard record: `{id, username, score, moves,
maxTile, createdAt}`.  `id` stands for the opaque `crypto.randomUUID()`
string and `createdAt` for `Date.now()`; `maxTile` may be `null`. -/
structure Entry where
  id : Nat
  username : String
  score : Nat
  moves : Nat
  maxTile : Option Nat
  createdAt : Nat
deriving DecidableEq, Repr

/-- The `sorted` comparator: score descending, then moves ascending,
then `createdAt` ascending.  `entryLE a b` holds when the comparator
puts `a` at or before `b`. -/
def entryLE (a b : Entry) : Bool :=
  if b.score ≠ a.score then decide (b.score ≤ a.score)
  else if a.moves ≠ b.moves then decide (a.moves ≤ b.moves)
  else decide (a.createdAt ≤ b.createdAt)

def entryRel (a b : Entry) : Prop := entryLE a b = true

instance : DecidableRel entryRel := fun a b => by
  unfold entryRel; infer_instance

/-- The comparator is total, so `Array.prototype.sort` (consistent
comparator) produces the list sorted by it; since ES2019 the sort is
stable, so its output is exactly the stable sort modelled here by
insertion sort. -/
instance : IsTotal Entry entryRel :=
  ⟨by
    intro a b
    simp only [entryRel, entryLE]
    split_ifs <;> simp_all <;> omega⟩

instance : IsTrans Entry entryRel :=
  ⟨by
    intro a b c h1 h2
    simp only [entryRel, entryLE] at h1 h2 ⊢
    split_ifs at h1 h2 ⊢ <;> simp_all <;> omega⟩

/-- `const MAX_ENTRIES = 5000`. -/
def MAX_ENTRIES : Nat := 5000

/-- `sorted(entries)`: the stable sort by the comparator. -/
def sortEntries (l : List Entry) : List Entry := l.insertionSort entryRel

/-- The `POST /api/leaderboard` storage update:
`entries.push(newEntry); cleaned = sorted(entries).slice(0, MAX_ENTRIES)`. -/
def storeUpdate (prev : List Entry) (e : Entry) : List Entry :=
  (sortEntries (prev ++ [e])).take MAX_ENTRIES

/-- Concrete full store for the C9 counterexample: 5000 records with
scores 5000 down to 1 and creation times 0 up to 4999. -/
def prevC9 : List Entry :=
  (List.range 5000).map (fun k => ⟨k, "player", 5000 - k, 0, none, k⟩)

/-- The incoming record for the C9 counterexample: the most recent
submission, with the lowest score. -/
def newC9 : Entry := ⟨5000, "newcomer", 0, 0, none, 5000⟩

/-- Game states reachable through the engine API: a fresh game, a
`move`, or a `reset`, with arbitrary spawn randomness. -/
inductive Reachable : Game → Prop
  | init (p1 : Nat) (r1 : Bool) (p2 : Nat) (r2 : Bool) :
      Reachable (newGame p1 r1 p2 r2)
  | step (g : Game) (d : String) (p : Nat) (r : Bool) :
      Reachable g → Reachable (move d p r g).fst
  | reset (g : Game) (p1 : Nat) (r1 : Bool) (p2 : Nat) (r2 : Bool) :
      Reachable g → Reachable (resetG p1 r1 p2 r2 g)

/-! ### C6: a reachable state with a kind above the win rank -/

/-- One engine step of a recorded play-through. -/
def c6Step (g : Game) (s : String × Nat × Bool) : Game :=
  (move s.1 s.2.1 s.2.2 g).fst

/-- Run a recorded list of (direction, spawn position rank, rare-draw) steps. -/
def c6Run (l : List (String × Nat × Bool)) (g : Game) : Game :=
  l.foldl c6Step g

/-- Moves 0-39 of the recorded game. -/
def c6T0 : List (String × Nat × Bool) :=
  [("left", 0, true),
   ("left", 1, true),
   ("left", 0, true),
   ("left", 0, true),
   ("left", 0, true),
   ("left", 1, true),
   ("left", 0, true),
   ("left", 0, true),
   ("left", 0, true),
   ("left", 1, true),
   ("left", 0, true),
   ("left", 0, true),
   ("left", 0, true),
   ("left", 4, true),
   ("up", 3, true),
   ("up", 0, true),
   ("left", 0, true),
   ("left", 0, true),
   ("left", 1, true),
   ("left", 0, true),
   ("left", 0, true),
   ("left", 0, true),
   ("left", 0, true),
   ("right", 6, true),
   ("up", 0, false),
   ("left", 0, true),
   ("left", 0, true),
   ("left", 0, true),
   ("right", 5, true),
   ("up", 0, true),
   ("left", 0, true),
   ("right", 4, true),
   ("up", 4, true),
   ("up", 4, true),
   ("up", 0, false),
   ("left", 0, true),
   ("left", 0, true),
   ("left", 0, true),
   ("down", 2, true),
   ("up", 0, true)]

/-- Moves 40-79 of the recorded game. -/
def c6T1 : List (String × Nat × Bool) :=
  [("left", 0, true),
   ("left", 0, true),
   ("up", 0, true),
   ("left", 0, true),
   ("left", 0, true),
   ("left", 0, true),
   ("up", 0, true),
   ("left", 0, true),
   ("up", 0, false),
   ("left", 0, true),
   ("right", 4, true),
   ("up", 0, true),
   ("left", 0, true),
   ("left", 0, true),
   ("left", 0, true),
   ("up", 1, true),
   ("up", 0, false),
   ("left", 0, true),
   ("right", 5, true),
   ("up", 0, false),
   ("left", 0, true),
   ("down", 3, true),
   ("up", 2, true),
   ("right", 8, true),
   ("up", 0, false),
   ("right", 0, true),
   ("right", 0, true),
   ("right", 5, true),
   ("up", 0, false),
   ("left", 0, true),
   ("left", 0, true),
   ("left", 0, true),
   ("up", 0, true),
   ("left", 0, true),
   ("down", 3, true),
   ("up", 0, true),
   ("left", 0, true),
   ("left", 0, true),
   ("left", 0, true),
   ("right", 5, true)]

/-- Moves 80-119 of the recorded game. -/
def c6T2 : List (String × Nat × Bool) :=
  [("up", 0, true),
   ("left", 0, true),
   ("right", 4, true),
   ("up", 4, true),
   ("up", 4, true),
   ("up", 0, false),
   ("left", 0, true),
   ("left", 0, true),
   ("left", 0, true),
   ("up", 0, true),
   ("left", 0, true),
   ("up", 0, false),
   ("left", 0, true),
   ("right", 4, true),
   ("up", 0, true),
   ("left", 0, true),
   ("down", 3, true),
   ("up", 1, true),
   ("right", 7, true),
   ("up", 3, false),
   ("up", 0, true),
   ("right", 0, true),
   ("right", 5, true),
   ("up", 0, true),
   ("left", 0, true),
   ("left", 0, true),
   ("up", 1, true),
   ("right", 4, true),
   ("up", 0, true),
   ("right", 5, true),
   ("up", 0, false),
   ("left", 0, true),
   ("down", 3, true),
   ("up", 2, true),
   ("right", 8, true),
   ("up", 0, false),
   ("right", 0, true),
   ("right", 0, true),
   ("right", 5, true),
   ("up", 0, false)]

/-- Moves 120-159 of the recorded game. -/
def c6T3 : List (String × Nat × Bool) :=
  [("left", 0, true),
   ("down", 3, true),
   ("up", 2, true),
   ("right", 8, true),
   ("up", 0, false),
   ("right", 0, true),
   ("right", 0, true),
   ("right", 5, true),
   ("up", 0, true),
   ("left", 0, true),
   ("right", 0, true),
   ("right", 0, true),
   ("right", 0, true),
   ("right", 0, true),
   ("right", 0, true),
   ("right", 0, true),
   ("right", 5, true),
   ("up", 0, true),
   ("left", 0, true),
   ("left", 0, true),
   ("left", 0, true),
   ("up", 0, true),
   ("right", 6, true),
   ("up", 0, false),
   ("left", 0, true),
   ("left", 0, true),
   ("left", 0, true),
   ("right", 5, true),
   ("up", 0, true),
   ("left", 0, true),
   ("right", 4, true),
   ("up", 4, true),
   ("up", 4, true),
   ("up", 0, false),
   ("left", 0, true),
   ("left", 0, true),
   ("left", 0, true),
   ("up", 0, true),
   ("left", 0, true),
   ("up", 0, false)]

/-- Moves 160-199 of the recorded game. -/
def c6T4 : List (String × Nat × Bool) :=
  [("left", 0, true),
   ("right", 4, true),
   ("up", 0, true),
   ("left", 0, true),
   ("down", 3, true),
   ("up", 1, true),
   ("right", 7, true),
   ("up", 3, false),
   ("up", 0, true),
   ("right", 0, true),
   ("right", 5, true),
   ("up", 0, true),
   ("left", 0, true),
   ("left", 0, true),
   ("up", 1, true),
   ("right", 4, true),
   ("up", 0, true),
   ("right", 5, true),
   ("up", 0, false),
   ("left", 0, true),
   ("down", 3, true),
   ("up", 2, true),
   ("right", 8, true),
   ("up", 0, false),
   ("right", 0, true),
   ("right", 0, true),
   ("right", 5, true),
   ("up", 0, false),
   ("left", 0, true),
   ("down", 3, true),
   ("up", 2, true),
   ("right", 8, true),
   ("up", 0, false),
   ("right", 0, true),
   ("right", 0, true),
   ("right", 5, true),
   ("up", 0, true),
   ("left", 0, true),
   ("right", 0, true),
   ("right", 0, true)]

/-- Moves 200-239 of the recorded game. -/
def c6T5 : List (String × Nat × Bool) :=
  [("right", 0, true),
   ("right", 0, true),
   ("right", 0, true),
   ("right", 0, true),
   ("right", 5, true),
   ("up", 0, true),
   ("left", 0, true),
   ("left", 0, true),
   ("up", 1, true),
   ("right", 4, true),
   ("up", 0, true),
   ("right", 5, true),
   ("up", 0, false),
   ("left", 0, true),
   ("down", 3, true),
   ("up", 2, true),
   ("right", 8, true),
   ("up", 0, false),
   ("right", 0, true),
   ("right", 0, true),
   ("right", 5, true),
   ("up", 0, false),
   ("left", 0, true),
   ("down", 3, true),
   ("up", 2, true),
   ("right", 8, true),
   ("up", 0, false),
   ("right", 0, true),
   ("right", 0, true),
   ("right", 5, true),
   ("up", 0, true),
   ("left", 0, true),
   ("right", 0, true),
   ("right", 0, true),
   ("right", 0, true),
   ("right", 0, true),
   ("right", 0, true),
   ("right", 0, true),
   ("right", 5, true),
   ("up", 0, true)]

/-- Moves 240-279 of the recorded game. -/
def c6T6 : List (String × Nat × Bool) :=
  [("left", 0, true),
   ("right", 4, true),
   ("up", 4, true),
   ("up", 4, true),
   ("up", 4, true),
   ("up", 0, true),
   ("right", 5, true),
   ("up", 5, true),
   ("up", 0, true),
   ("right", 0, true),
   ("right", 0, true),
   ("right", 0, true),
   ("right", 0, true),
   ("right", 0, true),
   ("right", 5, true),
   ("up", 5, true),
   ("up", 0, true),
   ("right", 0, true),
   ("right", 0, true),
   ("right", 0, true),
   ("right", 0, true),
   ("right", 0, true),
   ("right", 0, true),
   ("right", 0, true),
   ("right", 0, true),
   ("right", 0, true),
   ("right", 1, true),
   ("up", 0, true),
   ("up", 0, true),
   ("right", 0, true),
   ("right", 0, true),
   ("right", 8, true),
   ("up", 0, true),
   ("left", 0, true),
   ("left", 0, true),
   ("left", 1, true),
   ("left", 0, true),
   ("left", 0, true),
   ("left", 1, true),
   ("up", 0, true)]

/-- Moves 280-319 of the recorded game. -/
def c6T7 : List (String × Nat × Bool) :=
  [("right", 6, true),
   ("up", 0, false),
   ("left", 0, true),
   ("right", 5, true),
   ("up", 5, true),
   ("up", 5, true),
   ("up", 0, true),
   ("left", 0, true),
   ("left", 0, true),
   ("up", 1, true),
   ("up", 0, true),
   ("left", 0, true),
   ("right", 4, true),
   ("up", 4, true),
   ("up", 4, true),
   ("up", 0, false),
   ("left", 0, true),
   ("up", 0, false),
   ("left", 0, true),
   ("right", 4, true),
   ("up", 4, true),
   ("up", 3, true),
   ("up", 0, false),
   ("right", 5, true),
   ("up", 0, false),
   ("left", 0, true),
   ("left", 0, true),
   ("left", 0, true),
   ("down", 3, true),
   ("up", 0, true),
   ("left", 0, true),
   ("right", 4, true),
   ("up", 4, true),
   ("up", 4, true),
   ("up", 0, true),
   ("left", 0, true),
   ("up", 1, true),
   ("right", 7, true),
   ("up", 3, false),
   ("up", 0, true)]

/-- Moves 320-359 of the recorded game. -/
def c6T8 : List (String × Nat × Bool) :=
  [("right", 0, true),
   ("right", 5, true),
   ("up", 0, true),
   ("left", 0, true),
   ("right", 4, true),
   ("up", 4, true),
   ("up", 4, true),
   ("up", 4, true),
   ("up", 0, true),
   ("right", 5, true),
   ("up", 5, true),
   ("up", 0, true),
   ("right", 0, true),
   ("right", 0, true),
   ("right", 0, true),
   ("right", 0, true),
   ("right", 0, true),
   ("right", 5, true),
   ("up", 0, true),
   ("left", 0, true),
   ("left", 0, true),
   ("up", 1, true),
   ("right", 4, true),
   ("up", 0, true),
   ("right", 5, true),
   ("up", 0, false),
   ("left", 0, true),
   ("down", 3, true),
   ("up", 2, true),
   ("right", 8, true),
   ("up", 0, false),
   ("right", 0, true),
   ("right", 0, true),
   ("right", 5, true),
   ("up", 0, false),
   ("left", 0, true),
   ("down", 3, true),
   ("up", 2, true),
   ("right", 8, true),
   ("up", 0, false)]

/-- Moves 360-399 of the recorded game. -/
def c6T9 : List (String × Nat × Bool) :=
  [("right", 0, true),
   ("right", 0, true),
   ("right", 5, true),
   ("up", 0, true),
   ("left", 0, true),
   ("right", 0, true),
   ("right", 0, true),
   ("right", 0, true),
   ("right", 0, true),
   ("right", 0, true),
   ("right", 0, true),
   ("right", 5, true),
   ("up", 0, true),
   ("left", 0, true),
   ("right", 4, true),
   ("up", 4, true),
   ("up", 4, true),
   ("up", 4, true),
   ("up", 0, true),
   ("right", 5, true),
   ("up", 5, true),
   ("up", 0, true),
   ("right", 0, true),
   ("right", 0, true),
   ("right", 0, true),
   ("right", 0, true),
   ("right", 0, true),
   ("right", 5, true),
   ("up", 5, true),
   ("up", 0, true),
   ("right", 0, true),
   ("right", 0, true),
   ("right", 0, true),
   ("right", 0, true),
   ("right", 0, true),
   ("right", 0, true),
   ("right", 0, true),
   ("right", 0, true),
   ("right", 0, true),
   ("right", 1, true)]

/-- Moves 400-439 of the recorded game. -/
def c6T10 : List (String × Nat × Bool) :=
  [("up", 0, true),
   ("up", 0, true),
   ("right", 0, true),
   ("right", 0, true),
   ("right", 8, true),
   ("up", 0, true),
   ("left", 0, true),
   ("left", 0, true),
   ("left", 0, true),
   ("right", 0, true),
   ("right", 4, true),
   ("down", 3, true),
   ("up", 0, true),
   ("right", 0, true),
   ("left", 0, true),
   ("up", 0, true),
   ("right", 4, true),
   ("up", 4, true),
   ("up", 0, true),
   ("right", 5, true),
   ("up", 0, true),
   ("left", 0, true),
   ("right", 4, true),
   ("up", 4, true),
   ("up", 4, true),
   ("up", 4, true),
   ("up", 0, true),
   ("right", 5, true),
   ("up", 5, true),
   ("up", 0, true),
   ("right", 0, true),
   ("right", 0, true),
   ("right", 0, true),
   ("right", 0, true),
   ("right", 0, true),
   ("right", 5, true),
   ("up", 0, true),
   ("left", 0, true),
   ("right", 4, true),
   ("up", 4, true)]

/-- Moves 440-479 of the recorded game. -/
def c6T11 : List (String × Nat × Bool) :=
  [("up", 4, true),
   ("up", 4, true),
   ("up", 0, true),
   ("right", 5, true),
   ("up", 5, true),
   ("up", 0, true),
   ("right", 0, true),
   ("right", 0, true),
   ("right", 0, true),
   ("right", 0, true),
   ("right", 0, true),
   ("right", 5, true),
   ("up", 5, true),
   ("up", 0, true),
   ("right", 0, true),
   ("right", 0, true),
   ("right", 0, true),
   ("right", 0, true),
   ("right", 0, true),
   ("right", 0, true),
   ("right", 0, true),
   ("right", 0, true),
   ("right", 0, true),
   ("right", 1, true),
   ("up", 0, true),
   ("up", 0, true),
   ("right", 0, true),
   ("right", 0, true),
   ("right", 8, true),
   ("up", 0, true),
   ("left", 0, true),
   ("right", 0, true),
   ("down", 3, true),
   ("up", 0, true),
   ("right", 0, true),
   ("right", 0, true),
   ("right", 0, true),
   ("right", 0, true),
   ("right", 0, true),
   ("right", 0, true)]

/-- Moves 480-519 of the recorded game. -/
def c6T12 : List (String × Nat × Bool) :=
  [("right", 0, true),
   ("right", 1, true),
   ("up", 0, true),
   ("up", 0, true),
   ("right", 0, true),
   ("right", 0, true),
   ("right", 0, true),
   ("right", 0, true),
   ("right", 0, true),
   ("right", 0, true),
   ("right", 0, true),
   ("left", 3, true),
   ("up", 0, false),
   ("right", 0, true),
   ("right", 0, true),
   ("right", 0, true),
   ("left", 2, true),
   ("up", 0, true),
   ("right", 0, true),
   ("left", 1, true),
   ("up", 1, true),
   ("up", 1, true),
   ("up", 0, false),
   ("right", 0, true),
   ("right", 0, true),
   ("right", 1, true),
   ("up", 0, true),
   ("right", 0, true),
   ("right", 0, true),
   ("right", 0, true),
   ("up", 0, true),
   ("right", 0, true),
   ("right", 0, true),
   ("right", 0, true),
   ("up", 0, true),
   ("right", 0, true),
   ("up", 0, false),
   ("left", 1, true),
   ("up", 1, true),
   ("up", 0, true)]

/-- Moves 520-559 of the recorded game. -/
def c6T13 : List (String × Nat × Bool) :=
  [("right", 0, true),
   ("right", 0, true),
   ("right", 0, true),
   ("up", 0, true),
   ("up", 0, false),
   ("left", 0, true),
   ("left", 2, true),
   ("up", 0, false),
   ("right", 0, true),
   ("left", 0, false),
   ("right", 0, true),
   ("up", 2, true),
   ("left", 2, true),
   ("left", 2, true),
   ("up", 0, true),
   ("left", 2, true),
   ("up", 0, false),
   ("right", 0, true),
   ("right", 0, true),
   ("right", 1, true),
   ("left", 0, true),
   ("up", 0, false),
   ("left", 0, true),
   ("left", 0, true),
   ("left", 0, true),
   ("up", 0, true),
   ("left", 0, true),
   ("left", 1, true),
   ("up", 0, true),
   ("right", 5, true),
   ("up", 0, true),
   ("left", 0, true),
   ("right", 4, true),
   ("up", 1, false),
   ("left", 0, true),
   ("right", 4, true),
   ("up", 0, false),
   ("left", 0, true),
   ("up", 0, false),
   ("left", 0, true)]

/-- Moves 560-599 of the recorded game. -/
def c6T14 : List (String × Nat × Bool) :=
  [("right", 4, true),
   ("up", 0, true),
   ("left", 0, true),
   ("down", 3, true),
   ("up", 1, true),
   ("right", 7, true),
   ("up", 3, false),
   ("up", 0, true),
   ("right", 0, true),
   ("right", 5, true),
   ("up", 0, true),
   ("left", 0, true),
   ("left", 0, true),
   ("up", 1, true),
   ("right", 4, true),
   ("up", 0, true),
   ("right", 5, true),
   ("up", 0, false),
   ("left", 0, true),
   ("down", 3, true),
   ("up", 2, true),
   ("right", 8, true),
   ("up", 0, false),
   ("right", 0, true),
   ("right", 0, true),
   ("right", 5, true),
   ("up", 0, false),
   ("left", 0, true),
   ("down", 3, true),
   ("up", 2, true),
   ("right", 8, true),
   ("up", 0, false),
   ("right", 0, true),
   ("right", 0, true),
   ("right", 5, true),
   ("up", 0, true),
   ("left", 0, true),
   ("right", 0, true),
   ("right", 0, true),
   ("right", 0, true)]

/-- Moves 600-639 of the recorded game. -/
def c6T15 : List (String × Nat × Bool) :=
  [("right", 0, true),
   ("right", 0, true),
   ("right", 0, true),
   ("right", 5, true),
   ("up", 0, true),
   ("left", 0, true),
   ("left", 0, true),
   ("up", 1, true),
   ("right", 4, true),
   ("up", 0, true),
   ("right", 5, true),
   ("up", 0, false),
   ("left", 0, true),
   ("down", 3, true),
   ("up", 2, true),
   ("right", 8, true),
   ("up", 0, false),
   ("right", 0, true),
   ("right", 0, true),
   ("right", 5, true),
   ("up", 0, false),
   ("left", 0, true),
   ("down", 3, true),
   ("up", 2, true),
   ("right", 8, true),
   ("up", 0, false),
   ("right", 0, true),
   ("right", 0, true),
   ("right", 5, true),
   ("up", 0, true),
   ("left", 0, true),
   ("right", 0, true),
   ("right", 0, true),
   ("right", 0, true),
   ("right", 0, true),
   ("right", 0, true),
   ("right", 0, true),
   ("right", 5, true),
   ("up", 0, true),
   ("left", 0, true)]

/-- Moves 640-679 of the recorded game. -/
def c6T16 : List (String × Nat × Bool) :=
  [("right", 4, true),
   ("up", 4, true),
   ("up", 4, true),
   ("up", 4, true),
   ("up", 0, true),
   ("right", 5, true),
   ("up", 5, true),
   ("up", 0, true),
   ("right", 0, true),
   ("right", 0, true),
   ("right", 0, true),
   ("right", 0, true),
   ("right", 0, true),
   ("right", 5, true),
   ("up", 5, true),
   ("up", 0, true),
   ("right", 0, true),
   ("right", 0, true),
   ("right", 0, true),
   ("right", 0, true),
   ("right", 0, true),
   ("right", 0, true),
   ("right", 0, true),
   ("right", 0, true),
   ("right", 0, true),
   ("right", 1, true),
   ("up", 0, true),
   ("up", 0, true),
   ("right", 0, true),
   ("right", 0, true),
   ("right", 8, true),
   ("up", 0, true),
   ("left", 0, true),
   ("left", 0, true),
   ("left", 0, true),
   ("right", 0, true),
   ("right", 4, true),
   ("down", 3, true),
   ("up", 0, true),
   ("right", 0, true)]

/-- Moves 680-719 of the recorded game. -/
def c6T17 : List (String × Nat × Bool) :=
  [("left", 0, true),
   ("up", 0, true),
   ("right", 4, true),
   ("up", 4, true),
   ("up", 0, true),
   ("right", 5, true),
   ("up", 0, true),
   ("left", 0, true),
   ("right", 4, true),
   ("up", 4, true),
   ("up", 4, true),
   ("up", 4, true),
   ("up", 0, true),
   ("right", 5, true),
   ("up", 5, true),
   ("up", 0, true),
   ("right", 0, true),
   ("right", 0, true),
   ("right", 0, true),
   ("right", 0, true),
   ("right", 0, true),
   ("right", 5, true),
   ("up", 0, true),
   ("left", 0, true),
   ("right", 4, true),
   ("up", 4, true),
   ("up", 4, true),
   ("up", 4, true),
   ("up", 0, true),
   ("right", 5, true),
   ("up", 5, true),
   ("up", 0, true),
   ("right", 0, true),
   ("right", 0, true),
   ("right", 0, true),
   ("right", 0, true),
   ("right", 0, true),
   ("right", 5, true),
   ("up", 5, true),
   ("up", 0, true)]

/-- Moves 720-759 of the recorded game. -/
def c6T18 : List (String × Nat × Bool) :=
  [("right", 0, true),
   ("right", 0, true),
   ("right", 0, true),
   ("right", 0, true),
   ("right", 0, true),
   ("right", 0, true),
   ("right", 0, true),
   ("right", 0, true),
   ("right", 0, true),
   ("right", 1, true),
   ("up", 0, true),
   ("up", 0, true),
   ("right", 0, true),
   ("right", 0, true),
   ("right", 8, true),
   ("up", 0, true),
   ("left", 0, true),
   ("right", 0, true),
   ("down", 3, true),
   ("up", 0, true),
   ("right", 0, true),
   ("right", 0, true),
   ("right", 0, true),
   ("right", 0, true),
   ("right", 0, true),
   ("right", 0, true),
   ("right", 0, true),
   ("right", 1, true),
   ("up", 0, true),
   ("up", 0, true),
   ("right", 0, true),
   ("right", 0, true),
   ("right", 0, true),
   ("right", 0, true),
   ("right", 0, true),
   ("right", 0, true),
   ("right", 0, true),
   ("left", 3, true),
   ("up", 0, false),
   ("right", 0, true)]

/-- Moves 760-799 of the recorded game. -/
def c6T19 : List (String × Nat × Bool) :=
  [("right", 0, true),
   ("right", 0, true),
   ("left", 2, true),
   ("up", 0, true),
   ("right", 0, true),
   ("left", 1, true),
   ("up", 1, true),
   ("up", 1, true),
   ("up", 0, false),
   ("right", 0, true),
   ("right", 0, true),
   ("right", 1, true),
   ("up", 0, true),
   ("right", 0, true),
   ("right", 0, true),
   ("right", 0, true),
   ("up", 0, true),
   ("right", 0, true),
   ("right", 0, true),
   ("right", 0, true),
   ("up", 0, true),
   ("right", 0, true),
   ("up", 0, false),
   ("left", 1, true),
   ("up", 1, true),
   ("up", 0, true),
   ("right", 0, true),
   ("right", 0, true),
   ("right", 0, true),
   ("up", 0, true),
   ("up", 0, false),
   ("left", 0, true),
   ("left", 2, true),
   ("up", 0, false),
   ("right", 0, true),
   ("left", 0, false),
   ("right", 0, true),
   ("up", 2, true),
   ("left", 2, true),
   ("left", 2, true)]

/-- Moves 800-839 of the recorded game. -/
def c6T20 : List (String × Nat × Bool) :=
  [("up", 0, true),
   ("left", 2, true),
   ("up", 0, false),
   ("right", 0, true),
   ("right", 0, true),
   ("right", 1, true),
   ("left", 0, true),
   ("up", 0, false),
   ("left", 0, true),
   ("up", 0, true),
   ("left", 0, true),
   ("up", 0, false),
   ("left", 0, true),
   ("right", 6, false),
   ("up", 4, true),
   ("up", 0, true),
   ("right", 0, true),
   ("right", 5, true),
   ("up", 0, false),
   ("left", 0, true),
   ("down", 3, true),
   ("up", 2, true),
   ("right", 8, true),
   ("up", 0, false),
   ("right", 0, true),
   ("right", 0, true),
   ("right", 5, true),
   ("up", 0, true),
   ("left", 0, true),
   ("right", 0, true),
   ("right", 0, true),
   ("right", 0, true),
   ("right", 0, true),
   ("right", 0, true),
   ("right", 0, true),
   ("right", 5, true),
   ("up", 0, true),
   ("left", 0, true),
   ("right", 4, true),
   ("up", 4, true)]

/-- Moves 840-879 of the recorded game. -/
def c6T21 : List (String × Nat × Bool) :=
  [("up", 4, true),
   ("up", 4, true),
   ("up", 0, true),
   ("right", 5, true),
   ("up", 5, true),
   ("up", 0, true),
   ("right", 0, true),
   ("right", 0, true),
   ("right", 0, true),
   ("right", 0, true),
   ("right", 0, true),
   ("right", 5, true),
   ("up", 5, true),
   ("up", 0, true),
   ("right", 0, true),
   ("right", 0, true),
   ("right", 0, true),
   ("right", 0, true),
   ("right", 0, true),
   ("right", 0, true),
   ("right", 0, true),
   ("right", 0, true),
   ("right", 0, true),
   ("right", 1, true),
   ("up", 0, true),
   ("up", 0, true),
   ("right", 0, true),
   ("right", 0, true),
   ("right", 8, true),
   ("up", 0, true),
   ("left", 0, true),
   ("right", 0, true),
   ("down", 3, true),
   ("up", 0, true),
   ("right", 0, true),
   ("right", 0, true),
   ("right", 0, true),
   ("right", 0, true),
   ("right", 0, true),
   ("right", 0, true)]

/-- Moves 880-919 of the recorded game. -/
def c6T22 : List (String × Nat × Bool) :=
  [("right", 0, true),
   ("right", 1, true),
   ("up", 0, true),
   ("up", 0, true),
   ("right", 0, true),
   ("right", 0, true),
   ("right", 0, true),
   ("right", 0, true),
   ("right", 0, true),
   ("right", 0, true),
   ("right", 0, true),
   ("left", 3, true),
   ("up", 0, false),
   ("right", 0, true),
   ("right", 0, true),
   ("right", 0, true),
   ("left", 2, true),
   ("up", 0, true),
   ("right", 0, true),
   ("left", 1, true),
   ("up", 1, true),
   ("up", 1, true),
   ("up", 0, false),
   ("right", 0, true),
   ("right", 0, true),
   ("right", 1, true),
   ("up", 0, true),
   ("right", 0, true),
   ("right", 0, true),
   ("right", 0, true),
   ("up", 0, true),
   ("right", 0, true),
   ("right", 0, true),
   ("right", 0, true),
   ("up", 0, true),
   ("right", 0, true),
   ("up", 0, false),
   ("left", 1, true),
   ("up", 1, true),
   ("up", 0, true)]

/-- Moves 920-959 of the recorded game. -/
def c6T23 : List (String × Nat × Bool) :=
  [("right", 0, true),
   ("right", 0, true),
   ("right", 0, true),
   ("up", 0, true),
   ("up", 0, false),
   ("left", 0, true),
   ("left", 2, true),
   ("up", 0, false),
   ("right", 0, true),
   ("left", 0, false),
   ("right", 0, true),
   ("up", 2, true),
   ("left", 2, true),
   ("left", 2, true),
   ("up", 0, true),
   ("left", 2, true),
   ("up", 0, false),
   ("right", 0, true),
   ("right", 0, true),
   ("right", 1, true),
   ("left", 0, true),
   ("up", 0, true),
   ("right", 6, false),
   ("up", 4, true),
   ("up", 0, true),
   ("right", 1, true),
   ("up", 0, true),
   ("up", 0, true),
   ("right", 0, true),
   ("right", 0, true),
   ("right", 0, true),
   ("left", 3, true),
   ("up", 0, false),
   ("right", 0, true),
   ("left", 2, true),
   ("up", 2, true),
   ("up", 2, true),
   ("up", 0, true),
   ("right", 0, true),
   ("right", 0, true)]

/-- Moves 960-999 of the recorded game. -/
def c6T24 : List (String × Nat × Bool) :=
  [("up", 0, true),
   ("up", 0, true),
   ("right", 0, true),
   ("left", 1, true),
   ("up", 1, true),
   ("up", 1, true),
   ("up", 0, false),
   ("right", 0, true),
   ("up", 0, false),
   ("left", 1, true),
   ("up", 1, true),
   ("up", 1, true),
   ("up", 2, true),
   ("up", 0, false),
   ("left", 2, true),
   ("up", 0, false),
   ("right", 0, true),
   ("right", 0, true),
   ("right", 0, true),
   ("left", 0, false),
   ("right", 0, true),
   ("left", 1, true),
   ("up", 0, true),
   ("right", 0, true),
   ("up", 1, true),
   ("right", 0, true),
   ("up", 0, true),
   ("right", 0, true),
   ("up", 0, true),
   ("left", 2, true),
   ("up", 0, false),
   ("right", 0, true),
   ("left", 0, false),
   ("right", 0, true),
   ("up", 2, true),
   ("left", 2, true),
   ("left", 2, true),
   ("up", 0, true),
   ("left", 2, true),
   ("up", 0, false)]

/-- Moves 1000-1039 of the recorded game. -/
def c6T25 : List (String × Nat × Bool) :=
  [("right", 0, true),
   ("left", 0, false),
   ("right", 0, true),
   ("up", 2, true),
   ("left", 2, true),
   ("left", 2, true),
   ("up", 0, true),
   ("left", 2, true),
   ("up", 0, true),
   ("left", 0, true),
   ("left", 0, true),
   ("left", 0, true),
   ("left", 1, true),
   ("left", 0, true),
   ("left", 0, true),
   ("left", 0, true),
   ("left", 2, true),
   ("up", 0, true),
   ("right", 0, true),
   ("right", 0, true),
   ("up", 0, true),
   ("left", 1, true),
   ("up", 0, true),
   ("left", 2, true),
   ("up", 0, false),
   ("right", 0, true),
   ("left", 0, false),
   ("right", 0, true),
   ("up", 2, true),
   ("left", 2, true),
   ("left", 2, true),
   ("up", 0, true),
   ("left", 2, true),
   ("up", 0, false),
   ("right", 0, true),
   ("left", 0, false),
   ("right", 0, true),
   ("up", 2, true),
   ("left", 2, true),
   ("left", 2, true)]

/-- Moves 1040-1079 of the recorded game. -/
def c6T26 : List (String × Nat × Bool) :=
  [("up", 0, true),
   ("left", 2, true),
   ("up", 0, true),
   ("left", 0, true),
   ("left", 0, true),
   ("left", 0, true),
   ("left", 1, true),
   ("left", 0, true),
   ("left", 0, true),
   ("left", 0, true),
   ("left", 2, true),
   ("up", 0, true),
   ("right", 0, true),
   ("left", 1, true),
   ("up", 1, true),
   ("up", 1, true),
   ("up", 1, true),
   ("up", 0, true),
   ("left", 2, true),
   ("up", 2, true),
   ("up", 0, true),
   ("left", 0, true),
   ("left", 1, true),
   ("left", 0, true),
   ("left", 0, true),
   ("left", 0, true),
   ("left", 2, true),
   ("up", 2, true),
   ("up", 0, true),
   ("left", 0, true),
   ("left", 1, true),
   ("left", 0, true),
   ("left", 0, true),
   ("left", 0, true),
   ("left", 1, true),
   ("left", 0, true),
   ("left", 0, true),
   ("left", 0, true),
   ("left", 4, true),
   ("up", 3, true)]

/-- Moves 1080-1117 of the recorded game. -/
def c6T27 : List (String × Nat × Bool) :=
  [("up", 0, true),
   ("right", 0, true),
   ("up", 3, true),
   ("left", 2, true),
   ("up", 4, true),
   ("up", 3, true),
   ("up", 3, true),
   ("up", 3, true),
   ("up", 0, true),
   ("right", 0, true),
   ("left", 2, true),
   ("up", 0, true),
   ("right", 2, true),
   ("up", 2, true),
   ("up", 2, true),
   ("up", 0, true),
   ("right", 2, true),
   ("up", 0, false),
   ("right", 0, true),
   ("up", 2, true),
   ("up", 1, true),
   ("up", 0, true),
   ("left", 2, true),
   ("up", 2, true),
   ("up", 2, true),
   ("up", 0, true),
   ("right", 0, false),
   ("left", 0, true),
   ("left", 1, true),
   ("up", 1, false),
   ("left", 0, true),
   ("left", 0, true),
   ("up", 1, true),
   ("right", 0, true),
   ("right", 0, true),
   ("up", 0, false),
   ("left", 0, true),
   ("left", 0, true)]

/-- The engine state after moves 0-39 of the recorded game. -/
def c6G1 : Game :=
  ⟨[some 6, some 2, some 2, some 1, some 0, some 1, some 0, some 1, none, none, none, none, none, none, none, none], 330, 40, false, false, false, [0, 4, 1, 5, 2, 6, 3], [2], some 7, [none, none, some 1, none, none, none, none, none, some 6, some 2, some 1, none, some 0, some 1, some 0, some 1], [some 6, some 2, some 2, some 1, some 0, some 1, some 0, none, none, none, none, none, none, none, none, none], [(8, 0), (12, 4), (9, 1), (13, 5), (10, 2), (14, 6), (15, 3)], [⟨(2, 10), 2, 2⟩]⟩

/-- The engine state after moves 0-79 of the recorded game. -/
def c6G2 : Game :=
  ⟨[some 7, some 4, some 2, some 1, none, none, some 0, some 1, none, none, none, some 1, none, none, none, none], 828, 80, false, false, false, [7, 6], [], some 11, [some 7, some 4, some 2, some 1, some 0, some 1, none, none, none, none, none, none, none, none, none, none], [some 7, some 4, some 2, some 1, none, none, some 0, some 1, none, none, none, none, none, none, none, none], [(5, 7), (4, 6)], []⟩

/-- The engine state after moves 0-119 of the recorded game. -/
def c6G3 : Game :=
  ⟨[some 7, some 6, some 4, some 4, some 0, none, some 1, some 1, none, none, none, none, none, none, none, none], 1198, 120, false, false, false, [3, 7], [3], some 4, [some 7, some 6, some 4, some 3, none, none, some 1, some 3, none, none, none, some 1, none, none, none, none], [some 7, some 6, some 4, some 4, none, none, some 1, some 1, none, none, none, none, none, none, none, none], [(7, 3), (11, 7)], [⟨(3, 7), 3, 4⟩]⟩

/-- The engine state after moves 0-159 of the recorded game. -/
def c6G4 : Game :=
  ⟨[some 8, some 5, some 3, some 2, some 0, some 1, some 0, some 0, none, none, none, none, none, none, none, none], 1956, 160, false, false, false, [3], [3], some 7, [some 8, some 5, some 3, some 1, some 0, some 1, some 0, some 1, none, none, none, none, none, none, none, none], [some 8, some 5, some 3, some 2, some 0, some 1, some 0, none, none, none, none, none, none, none, none, none], [(7, 3)], [⟨(3, 7), 3, 2⟩]⟩

/-- The engine state after moves 0-199 of the recorded game. -/
def c6G5 : Game :=
  ⟨[some 8, some 6, some 5, some 4, some 1, none, some 1, some 3, none, none, none, none, none, none, none, none], 2328, 200, false, false, false, [7, 6], [7], some 4, [some 8, some 6, some 5, some 4, some 1, none, some 2, some 2, none, none, none, none, none, none, none, none], [some 8, some 6, some 5, some 4, none, none, some 1, some 3, none, none, none, none, none, none, none, none], [(6, 7), (4, 6)], [⟨(7, 6), 7, 3⟩]⟩

/-- The engine state after moves 0-239 of the recorded game. -/
def c6G6 : Game :=
  ⟨[some 8, some 7, some 5, some 5, some 1, none, some 2, some 1, none, none, none, none, none, none, none, none], 2848, 240, false, false, false, [3, 7], [3], some 4, [some 8, some 7, some 5, some 4, none, none, some 2, some 4, none, none, none, some 1, none, none, none, none], [some 8, some 7, some 5, some 5, none, none, some 2, some 1, none, none, none, none, none, none, none, none], [(7, 3), (11, 7)], [⟨(3, 7), 3, 5⟩]⟩

/-- The engine state after moves 0-279 of the recorded game. -/
def c6G7 : Game :=
  ⟨[some 9, some 4, some 2, some 1, some 1, none, none, none, none, none, none, none, none, none, none, none], 4176, 280, false, false, false, [1, 2], [1, 2], some 3, [some 9, some 3, some 1, none, some 1, some 3, some 1, none, none, none, none, none, none, none, none, none], [some 9, some 4, some 2, none, some 1, none, none, none, none, none, none, none, none, none, none, none], [(5, 1), (6, 2)], [⟨(1, 5), 1, 4⟩, ⟨(2, 6), 2, 2⟩]⟩

/-- The engine state after moves 0-319 of the recorded game. -/
def c6G8 : Game :=
  ⟨[some 9, some 6, some 4, some 3, some 1, some 1, some 1, some 2, none, none, none, none, none, none, none, none], 4518, 320, false, false, false, [6], [6], some 4, [some 9, some 6, some 4, some 3, none, some 1, some 0, some 2, none, none, some 0, none, none, none, none, none], [some 9, some 6, some 4, some 3, none, some 1, some 1, some 2, none, none, none, none, none, none, none, none], [(10, 6)], [⟨(6, 10), 6, 1⟩]⟩

/-- The engine state after moves 0-359 of the recorded game. -/
def c6G9 : Game :=
  ⟨[some 9, some 7, some 5, some 3, some 0, none, some 0, some 2, none, none, none, none, none, none, none, none], 5048, 360, false, false, false, [3, 7], [3, 7], some 4, [some 9, some 7, some 5, some 2, none, none, some 0, some 2, none, none, none, some 1, none, none, none, some 1], [some 9, some 7, some 5, some 3, none, none, some 0, some 2, none, none, none, none, none, none, none, none], [(7, 3), (11, 7), (15, 7)], [⟨(3, 7), 3, 3⟩, ⟨(11, 15), 7, 2⟩]⟩

/-- The engine state after moves 0-399 of the recorded game. -/
def c6G10 : Game :=
  ⟨[some 9, some 7, some 6, some 5, none, some 2, some 3, some 4, some 1, none, none, none, none, none, none, none], 5418, 400, false, false, false, [5], [5], some 8, [some 9, some 7, some 6, some 5, some 1, some 1, some 3, some 4, none, none, none, none, none, none, none, none], [some 9, some 7, some 6, some 5, none, some 2, some 3, some 4, none, none, none, none, none, none, none, none], [(4, 5)], [⟨(5, 4), 5, 2⟩]⟩

/-- The engine state after moves 0-439 of the recorded game. -/
def c6G11 : Game :=
  ⟨[some 9, some 8, some 6, some 2, none, some 1, some 2, some 1, none, none, none, some 1, none, none, none, none], 6254, 440, false, false, false, [3, 7], [3], some 11, [some 9, some 8, some 6, some 1, none, some 1, some 2, some 1, none, none, none, some 1, none, none, none, none], [some 9, some 8, some 6, some 2, none, some 1, some 2, some 1, none, none, none, none, none, none, none, none], [(7, 3), (11, 7)], [⟨(3, 7), 3, 2⟩]⟩

/-- The engine state after moves 0-479 of the recorded game. -/
def c6G12 : Game :=
  ⟨[some 9, some 8, some 7, some 2, some 1, some 2, some 2, some 4, none, none, none, none, none, none, none, none], 6754, 480, false, false, false, [5], [5], some 4, [some 9, some 8, some 7, some 2, some 1, some 1, some 2, some 4, none, none, none, none, none, none, none, none], [some 9, some 8, some 7, some 2, none, some 2, some 2, some 4, none, none, none, none, none, none, none, none], [(4, 5)], [⟨(5, 4), 5, 2⟩]⟩

/-- The engine state after moves 0-519 of the recorded game. -/
def c6G13 : Game :=
  ⟨[some 9, some 8, some 7, some 2, some 3, some 3, some 4, some 6, some 1, some 1, some 0, some 1, none, none, none, none], 7100, 520, false, false, false, [4, 8], [4], some 11, [some 9, some 8, some 7, some 2, some 2, some 3, some 4, some 6, some 2, some 1, some 0, none, some 1, none, none, none], [some 9, some 8, some 7, some 2, some 3, some 3, some 4, some 6, some 1, some 1, some 0, none, none, none, none, none], [(8, 4), (12, 8)], [⟨(4, 8), 4, 3⟩]⟩

/-- The engine state after moves 0-559 of the recorded game. -/
def c6G14 : Game :=
  ⟨[some 10, some 5, some 3, some 2, some 0, some 1, some 1, some 1, none, none, none, none, none, none, none, none], 9412, 560, false, true, false, [6], [6], some 7, [some 10, some 5, some 3, some 2, some 0, some 1, some 0, some 0, none, none, none, none, none, none, none, none], [some 10, some 5, some 3, some 2, some 0, some 1, some 1, none, none, none, none, none, none, none, none, none], [(7, 6)], [⟨(6, 7), 6, 1⟩]⟩

/-- The engine state after moves 0-599 of the recorded game. -/
def c6G15 : Game :=
  ⟨[some 10, some 6, some 5, some 4, some 1, none, some 2, some 3, none, none, none, none, none, none, none, none], 9786, 600, false, true, false, [6], [6], some 4, [some 10, some 6, some 5, some 4, some 1, none, some 1, some 3, none, none, none, none, none, none, none, none], [some 10, some 6, some 5, some 4, none, none, some 2, some 3, none, none, none, none, none, none, none, none], [(4, 6)], [⟨(6, 4), 6, 2⟩]⟩

/-- The engine state after moves 0-639 of the recorded game. -/
def c6G16 : Game :=
  ⟨[some 10, some 7, some 6, some 1, some 1, some 2, some 1, none, none, none, none, none, none, none, none, none], 10366, 640, false, true, false, [2, 5, 6], [2], some 3, [some 10, some 7, some 5, some 5, some 1, none, some 2, some 1, none, none, none, none, none, none, none, none], [some 10, some 7, some 6, none, some 1, some 2, some 1, none, none, none, none, none, none, none, none, none], [(3, 2), (6, 5), (7, 6)], [⟨(2, 3), 2, 6⟩]⟩

/-- The engine state after moves 0-679 of the recorded game. -/
def c6G17 : Game :=
  ⟨[some 10, some 8, some 3, some 2, some 1, none, some 2, some 3, none, none, none, none, none, none, none, none], 11106, 680, false, true, false, [6], [6], some 4, [some 10, some 8, some 3, some 2, some 1, none, some 1, some 3, none, none, none, none, none, none, none, none], [some 10, some 8, some 3, some 2, none, none, some 2, some 3, none, none, none, none, none, none, none, none], [(4, 6)], [⟨(6, 4), 6, 2⟩]⟩

/-- The engine state after moves 0-719 of the recorded game. -/
def c6G18 : Game :=
  ⟨[some 10, some 8, some 6, some 5, some 1, none, some 2, some 2, none, none, none, none, none, none, none, none], 11522, 720, false, true, false, [7], [7], some 4, [some 10, some 8, some 6, some 5, none, none, some 2, some 1, none, none, none, some 1, none, none, none, none], [some 10, some 8, some 6, some 5, none, none, some 2, some 2, none, none, none, none, none, none, none, none], [(11, 7)], [⟨(7, 11), 7, 2⟩]⟩

/-- The engine state after moves 0-759 of the recorded game. -/
def c6G19 : Game :=
  ⟨[some 10, some 8, some 7, some 2, some 1, some 3, some 3, some 5, none, none, some 1, some 0, none, none, none, none], 11998, 760, false, true, false, [5, 11, 10], [5], some 4, [some 10, some 8, some 7, some 2, some 2, some 2, some 3, some 5, some 1, some 0, none, none, none, none, none, none], [some 10, some 8, some 7, some 2, none, some 3, some 3, some 5, none, none, some 1, some 0, none, none, none, none], [(4, 5), (9, 11), (8, 10)], [⟨(5, 4), 5, 3⟩]⟩

/-- The engine state after moves 0-799 of the recorded game. -/
def c6G20 : Game :=
  ⟨[some 10, some 8, some 7, some 2, some 2, some 4, some 5, some 6, some 2, some 1, none, none, some 2, some 1, none, none], 12352, 800, false, true, false, [12], [12], some 13, [some 10, some 8, some 7, some 2, some 2, some 4, some 5, some 6, some 2, some 1, none, none, some 1, some 1, none, none], [some 10, some 8, some 7, some 2, some 2, some 4, some 5, some 6, some 2, some 1, none, none, some 2, none, none, none], [(13, 12)], [⟨(12, 13), 12, 2⟩]⟩

/-- The engine state after moves 0-839 of the recorded game. -/
def c6G21 : Game :=
  ⟨[some 10, some 9, some 6, some 2, none, some 1, some 2, some 1, none, none, none, some 1, none, none, none, none], 13710, 840, false, true, false, [3, 7], [3], some 11, [some 10, some 9, some 6, some 1, none, some 1, some 2, some 1, none, none, none, some 1, none, none, none, none], [some 10, some 9, some 6, some 2, none, some 1, some 2, some 1, none, none, none, none, none, none, none, none], [(7, 3), (11, 7)], [⟨(3, 7), 3, 2⟩]⟩

/-- The engine state after moves 0-879 of the recorded game. -/
def c6G22 : Game :=
  ⟨[some 10, some 9, some 7, some 2, some 1, some 2, some 2, some 4, none, none, none, none, none, none, none, none], 14210, 880, false, true, false, [5], [5], some 4, [some 10, some 9, some 7, some 2, some 1, some 1, some 2, some 4, none, none, none, none, none, none, none, none], [some 10, some 9, some 7, some 2, none, some 2, some 2, some 4, none, none, none, none, none, none, none, none], [(4, 5)], [⟨(5, 4), 5, 2⟩]⟩

/-- The engine state after moves 0-919 of the recorded game. -/
def c6G23 : Game :=
  ⟨[some 10, some 9, some 7, some 2, some 3, some 3, some 4, some 6, some 1, some 1, some 0, some 1, none, none, none, none], 14556, 920, false, true, false, [4, 8], [4], some 11, [some 10, some 9, some 7, some 2, some 2, some 3, some 4, some 6, some 2, some 1, some 0, none, some 1, none, none, none], [some 10, some 9, some 7, some 2, some 3, some 3, some 4, some 6, some 1, some 1, some 0, none, none, none, none, none], [(8, 4), (12, 8)], [⟨(4, 8), 4, 3⟩]⟩

/-- The engine state after moves 0-959 of the recorded game. -/
def c6G24 : Game :=
  ⟨[some 10, some 9, some 8, some 3, some 1, some 1, some 5, some 2, none, some 1, some 0, some 1, none, none, none, none], 15330, 960, false, true, false, [6, 5], [6], some 4, [some 10, some 9, some 8, some 3, some 1, some 4, some 4, some 2, none, some 1, some 0, some 1, none, none, none, none], [some 10, some 9, some 8, some 3, none, some 1, some 5, some 2, none, some 1, some 0, some 1, none, none, none, none], [(5, 6), (4, 5)], [⟨(6, 5), 6, 5⟩]⟩

/-- The engine state after moves 0-999 of the recorded game. -/
def c6G25 : Game :=
  ⟨[some 10, some 9, some 8, some 4, some 4, some 4, some 6, some 3, some 1, some 1, some 0, none, none, none, none, none], 15670, 1000, false, true, false, [4, 8], [4], some 10, [some 10, some 9, some 8, some 4, some 3, some 4, some 6, some 3, some 3, some 1, none, none, some 1, none, none, none], [some 10, some 9, some 8, some 4, some 4, some 4, some 6, some 3, some 1, some 1, none, none, none, none, none, none], [(8, 4), (12, 8)], [⟨(4, 8), 4, 4⟩]⟩

/-- The engine state after moves 0-1039 of the recorded game. -/
def c6G26 : Game :=
  ⟨[some 10, some 9, some 8, some 4, some 2, some 5, some 7, some 3, some 2, some 1, none, none, some 2, some 1, none, none], 16168, 1040, false, true, false, [12], [12], some 13, [some 10, some 9, some 8, some 4, some 2, some 5, some 7, some 3, some 2, some 1, none, none, some 1, some 1, none, none], [some 10, some 9, some 8, some 4, some 2, some 5, some 7, some 3, some 2, some 1, none, none, some 2, none, none, none], [(13, 12)], [⟨(12, 13), 12, 2⟩]⟩

/-- The engine state after moves 0-1079 of the recorded game. -/
def c6G27 : Game :=
  ⟨[some 10, some 9, some 8, some 4, some 5, some 6, some 7, some 3, some 4, some 3, some 2, some 1, none, none, none, some 1], 16544, 1080, false, true, false, [11], [], some 15, [some 10, some 9, some 8, some 4, some 5, some 6, some 7, some 3, some 4, some 3, some 2, none, none, none, none, some 1], [some 10, some 9, some 8, some 4, some 5, some 6, some 7, some 3, some 4, some 3, some 2, some 1, none, none, none, none], [(15, 11)], []⟩

/-- The engine state after moves 0-1117 of the recorded game. -/
def c6G28 : Game :=
  ⟨[some 11, some 6, some 1, some 1, some 1, some 2, some 4, none, some 1, some 2, none, none, none, none, none, none], 20952, 1118, false, true, false, [0, 1, 2], [0], some 3, [some 10, some 10, some 6, some 1, some 1, some 2, some 4, none, some 1, some 2, none, none, none, none, none, none], [some 11, some 6, some 1, none, some 1, some 2, some 4, none, some 1, some 2, none, none, none, none, none, none], [(1, 0), (2, 1), (3, 2)], [⟨(0, 1), 0, 11⟩]⟩

/-- Sum of `2^newKind` over a list of merge records (the total score a
set of merges contributes). -/
def mergeScore (l : List MergeRec) : Nat :=
  (l.map (fun m => 2 ^ m.newKind)).sum

theorem mergeScore_nil : mergeScore [] = 0 := rfl

theorem mergeScore_append (a b : List MergeRec) :
    mergeScore (a ++ b) = mergeScore a + mergeScore b := by
  simp [mergeScore]

/-! ### Unfolding equations for `collapse` -/

theorem collapse_nil (ts : List Nat) : collapse [] ts = ⟨[], 0, [], [], [], []⟩ := rfl

theorem collapse_one (v f : Nat) (ts : List Nat) :
    collapse [(v, f)] ts =
      ⟨[v], 0,
       if f ≠ ts.headD 0 then [ts.headD 0] else [], [],
       if f ≠ ts.headD 0 then [(f, ts.headD 0)] else [], []⟩ := by
  simp [collapse, collapse_nil]

theorem collapse_two_eq (v f f2 : Nat) (rest2 : List (Nat × Nat)) (ts : List Nat) :
    collapse ((v, f) :: (v, f2) :: rest2) ts =
      ⟨(v + 1) :: (collapse rest2 ts.tail).vals,
       2 ^ (v + 1) + (collapse rest2 ts.tail).score,
       (if f ≠ ts.headD 0 ∨ f2 ≠ ts.headD 0 then [ts.headD 0] else []) ++
         (collapse rest2 ts.tail).movedT,
       ts.headD 0 :: (collapse rest2 ts.tail).mergedT,
       ((if f ≠ ts.headD 0 then [(f, ts.headD 0)] else []) ++
         (if f2 ≠ ts.headD 0 then [(f2, ts.headD 0)] else [])) ++
         (collapse rest2 ts.tail).movs,
       ⟨(f, f2), ts.headD 0, v + 1⟩ :: (collapse rest2 ts.tail).mergs⟩ := by
  simp [collapse]

theorem collapse_two_ne (v f v2 f2 : Nat) (rest2 : List (Nat × Nat)) (ts : List Nat)
    (h : ¬v2 = v) :
    collapse ((v, f) :: (v2, f2) :: rest2) ts =
      ⟨v :: (collapse ((v2, f2) :: rest2) ts.tail).vals,
       (collapse ((v2, f2) :: rest2) ts.tail).score,
       (if f ≠ ts.headD 0 then [ts.headD 0] else []) ++
         (collapse ((v2, f2) :: rest2) ts.tail).movedT,
       (collapse ((v2, f2) :: rest2) ts.tail).mergedT,
       (if f ≠ ts.headD 0 then [(f, ts.headD 0)] else []) ++
         (collapse ((v2, f2) :: rest2) ts.tail).movs,
       (collapse ((v2, f2) :: rest2) ts.tail).mergs⟩ := by
  simp [collapse, h]

/-- The score accumulated by one line pass is exactly the sum of
`2^newKind` over the merge records the pass emitted. -/
theorem collapse_score (es : List (Nat × Nat)) (ts : List Nat) :
    (collapse es ts).score = mergeScore (collapse es ts).mergs := by
  induction es, ts using collapse.induct with
  | case1 ts => simp [collapse_nil, mergeScore]
  | case2 f ts v2 f2 rest2 ih => rw [collapse_two_eq]; simp [mergeScore, ih]
  | case3 v f ts v2 f2 rest2 hne ih => rw [collapse_two_ne _ _ _ _ _ _ hne]; simpa using ih
  | case4 v f ts ih => rw [collapse_one]; simp [mergeScore]

/-- Each merge consumes exactly two entries and yields one output slot;
an output is never reconsidered (no re-scan of merge results). -/
theorem collapse_count (es : List (Nat × Nat)) (ts : List Nat) :
    es.length = (collapse es ts).vals.length + (collapse es ts).mergs.length := by
  induction es, ts using collapse.induct with
  | case1 ts => simp [collapse_nil]
  | case2 f ts v2 f2 rest2 ih => rw [collapse_two_eq]; simp only [List.length_cons]; omega
  | case3 v f ts v2 f2 rest2 hne ih =>
    rw [collapse_two_ne _ _ _ _ _ _ hne]; simp only [List.length_cons] at ih ⊢; omega
  | case4 v f ts ih => rw [collapse_one]; simp

/-- Every merge record pairs two entries adjacent in reading order with
equal kinds, and its new kind is that kind plus one. -/
theorem collapse_merge_adj (es : List (Nat × Nat)) (ts : List Nat) :
    ∀ m ∈ (collapse es ts).mergs,
      ∃ i v, es[i]? = some (v, m.src.1) ∧ es[i + 1]? = some (v, m.src.2) ∧
        m.newKind = v + 1 := by
  induction es, ts using collapse.induct with
  | case1 ts => simp [collapse_nil]
  | case2 f ts v2 f2 rest2 ih =>
    intro m hm
    rw [collapse_two_eq] at hm
    rcases List.mem_cons.mp hm with h | h
    · exact ⟨0, v2, by simp [h], by simp [h], by simp [h]⟩
    · obtain ⟨i, v, h1, h2, h3⟩ := ih m h
      exact ⟨i + 2, v, by simpa using h1, by simpa using h2, h3⟩
  | case3 v f ts v2 f2 rest2 hne ih =>
    intro m hm
    rw [collapse_two_ne _ _ _ _ _ _ hne] at hm
    obtain ⟨i, w, h1, h2, h3⟩ := ih m hm
    exact ⟨i + 1, w, by simpa using h1, by simpa using h2, h3⟩
  | case4 v f ts ih =>
    intro m hm
    rw [collapse_one] at hm
    simp at hm

/-- The origins appearing in merge records form a sublist of the entry
origins (so with distinct entry origins, no tile merges twice). -/
theorem collapse_merge_srcs_sublist (es : List (Nat × Nat)) (ts : List Nat) :
    ((collapse es ts).mergs.flatMap (fun m => [m.src.1, m.src.2])).Sublist
      (es.map Prod.snd) := by
  induction es, ts using collapse.induct with
  | case1 ts => simp [collapse_nil]
  | case2 f ts v2 f2 rest2 ih =>
    rw [collapse_two_eq]
    simpa using (ih.cons₂ f2).cons₂ f
  | case3 v f ts v2 f2 rest2 hne ih =>
    rw [collapse_two_ne _ _ _ _ _ _ hne]
    simpa using ih.cons f
  | case4 v f ts ih =>
    rw [collapse_one]
    simp


/-- Helper: the optional single `moves` record of one branch keeps the
origin sublist property. -/
theorem movs_opt_sublist (f t : Nat) {l : List (Nat × Nat)} {L : List Nat}
    (h : (l.map Prod.fst).Sublist L) :
    (((if f ≠ t then [(f, t)] else []) ++ l).map Prod.fst).Sublist (f :: L) := by
  by_cases hf : f = t
  · subst hf
    simp only [ne_eq, not_true_eq_false, if_false, List.nil_append]
    exact h.cons f
  · simp only [ne_eq, hf, not_false_eq_true, if_true, List.map_append, List.map_cons]
    exact h.cons₂ f

/-- The origins of `moves` records form a sublist of the entry origins. -/
theorem collapse_movs_sublist (es : List (Nat × Nat)) (ts : List Nat) :
    ((collapse es ts).movs.map Prod.fst).Sublist (es.map Prod.snd) := by
  induction es, ts using collapse.induct with
  | case1 ts => simp [collapse_nil]
  | case2 f ts v2 f2 rest2 ih =>
    rw [collapse_two_eq]
    have h2 := movs_opt_sublist f2 (ts.headD 0) ih
    have h1 := movs_opt_sublist f (ts.headD 0) h2
    simpa [List.append_assoc] using h1
  | case3 v f ts v2 f2 rest2 hne ih =>
    rw [collapse_two_ne _ _ _ _ _ _ hne]
    simpa using movs_opt_sublist f (ts.headD 0) ih
  | case4 v f ts ih =>
    rw [collapse_one]
    simpa using movs_opt_sublist f (ts.headD 0)
      (l := []) (L := []) (by simp)

/-- Helper: records in one optional-head chunk link distinct cells. -/
theorem movs_opt_ne (f t : Nat) {l : List (Nat × Nat)}
    (h : ∀ p ∈ l, p.1 ≠ p.2) :
    ∀ p ∈ (if f ≠ t then [(f, t)] else []) ++ l, p.1 ≠ p.2 := by
  intro p hp
  rcases List.mem_append.mp hp with h1 | h1
  · split at h1
    next hft => rw [List.mem_singleton] at h1; subst h1; exact hft
    next => simp at h1
  · exact h p h1

/-- A `moves` record is emitted only when origin and destination differ. -/
theorem collapse_movs_ne (es : List (Nat × Nat)) (ts : List Nat) :
    ∀ p ∈ (collapse es ts).movs, p.1 ≠ p.2 := by
  induction es, ts using collapse.induct with
  | case1 ts => simp [collapse_nil]
  | case2 f ts v2 f2 rest2 ih =>
    rw [collapse_two_eq]
    have := movs_opt_ne f (ts.headD 0) (movs_opt_ne f2 (ts.headD 0) ih)
    simpa [List.append_assoc] using this
  | case3 v f ts v2 f2 rest2 hne ih =>
    rw [collapse_two_ne _ _ _ _ _ _ hne]
    exact movs_opt_ne f (ts.headD 0) ih
  | case4 v f ts ih =>
    rw [collapse_one]
    intro p hp
    rw [← List.append_nil (if f ≠ ts.headD 0 then [(f, ts.headD 0)] else [])] at hp
    exact movs_opt_ne f (ts.headD 0) (by simp) p hp

/-- Each merge record's destination is the line index at some write
position `w`, and the compacted output holds the merged kind there. -/
theorem collapse_merge_pos (es : List (Nat × Nat)) (ts : List Nat) :
    es.length ≤ ts.length →
    ∀ m ∈ (collapse es ts).mergs,
      ∃ w : Nat, ts[w]? = some m.dst ∧ (collapse es ts).vals[w]? = some m.newKind := by
  induction es, ts using collapse.induct with
  | case1 ts => simp [collapse_nil]
  | case2 f ts v2 f2 rest2 ih =>
    intro hlen m hm
    cases ts with
    | nil => simp at hlen
    | cons t0 ts2 =>
      rw [collapse_two_eq] at hm ⊢
      simp only [List.headD_cons, List.tail_cons] at hm ⊢
      rcases List.mem_cons.mp hm with h | h
      · subst h
        exact ⟨0, by simp, by simp⟩
      · have hlen2 : rest2.length ≤ ts2.length := by
          simp only [List.length_cons] at hlen; omega
        obtain ⟨w, hw1, hw2⟩ := ih hlen2 m h
        exact ⟨w + 1, by simpa using hw1, by simpa using hw2⟩
  | case3 v f ts v2 f2 rest2 hne ih =>
    intro hlen m hm
    cases ts with
    | nil => simp at hlen
    | cons t0 ts2 =>
      rw [collapse_two_ne _ _ _ _ _ _ hne] at hm ⊢
      simp only [List.tail_cons] at hm ⊢
      have hlen2 : ((v2, f2) :: rest2).length ≤ ts2.length := by
        simp only [List.length_cons] at hlen ⊢; omega
      obtain ⟨w, hw1, hw2⟩ := ih hlen2 m hm
      exact ⟨w + 1, by simpa using hw1, by simpa using hw2⟩
  | case4 v f ts ih =>
    intro _ m hm
    rw [collapse_one] at hm
    simp at hm

/-- Each `moves` record's destination is the line index at some write
position `w`, and the compacted output is non-null there. -/
theorem collapse_movs_pos (es : List (Nat × Nat)) (ts : List Nat) :
    es.length ≤ ts.length →
    ∀ p ∈ (collapse es ts).movs,
      ∃ w x : Nat, ts[w]? = some p.2 ∧ (collapse es ts).vals[w]? = some x := by
  induction es, ts using collapse.induct with
  | case1 ts => simp [collapse_nil]
  | case2 f ts v2 f2 rest2 ih =>
    intro hlen p hp
    cases ts with
    | nil => simp at hlen
    | cons t0 ts2 =>
      rw [collapse_two_eq] at hp ⊢
      simp only [List.headD_cons, List.tail_cons] at hp ⊢
      simp only [List.append_assoc, List.mem_append] at hp
      have hlen2 : rest2.length ≤ ts2.length := by
        simp only [List.length_cons] at hlen; omega
      rcases hp with h | h | h
      · have : p = (f, t0) := by
          split at h
          · simpa using h
          · simp at h
        subst this
        exact ⟨0, v2 + 1, by simp, by simp⟩
      · have : p = (f2, t0) := by
          split at h
          · simpa using h
          · simp at h
        subst this
        exact ⟨0, v2 + 1, by simp, by simp⟩
      · obtain ⟨w, x, hw1, hw2⟩ := ih hlen2 p h
        exact ⟨w + 1, x, by simpa using hw1, by simpa using hw2⟩
  | case3 v f ts v2 f2 rest2 hne ih =>
    intro hlen p hp
    cases ts with
    | nil => simp at hlen
    | cons t0 ts2 =>
      rw [collapse_two_ne _ _ _ _ _ _ hne] at hp ⊢
      simp only [List.headD_cons, List.tail_cons] at hp ⊢
      simp only [List.mem_append] at hp
      have hlen2 : ((v2, f2) :: rest2).length ≤ ts2.length := by
        simp only [List.length_cons] at hlen ⊢; omega
      rcases hp with h | h
      · have : p = (f, t0) := by
          split at h
          · simpa using h
          · simp at h
        subst this
        exact ⟨0, v, by simp, by simp⟩
      · obtain ⟨w, x, hw1, hw2⟩ := ih hlen2 p h
        exact ⟨w + 1, x, by simpa using hw1, by simpa using hw2⟩
  | case4 v f ts ih =>
    intro hlen p hp
    cases ts with
    | nil => simp at hlen
    | cons t0 ts2 =>
      rw [collapse_one] at hp ⊢
      simp only [List.headD_cons] at hp ⊢
      have : p = (f, t0) := by
        split at hp
        · simpa using hp
        · simp at hp
      subst this
      exact ⟨0, v, by simp, by simp⟩

/-- If a line pass merged anything, it also recorded a moved tile
(the two merge origins are distinct cells, so at least one of them is
not the merge target). -/
theorem collapse_merged_movedT (es : List (Nat × Nat)) (ts : List Nat) :
    (es.map Prod.snd).Nodup →
    (collapse es ts).mergedT ≠ [] → (collapse es ts).movedT ≠ [] := by
  induction es, ts using collapse.induct with
  | case1 ts => simp [collapse_nil]
  | case2 f ts v2 f2 rest2 ih =>
    intro hnd _
    rw [collapse_two_eq]
    have hne : f ≠ f2 := by
      simp only [List.map_cons, List.nodup_cons, List.mem_cons] at hnd
      exact fun h => hnd.1 (Or.inl h)
    have hor : f ≠ ts.headD 0 ∨ f2 ≠ ts.headD 0 := by
      by_cases h : f = ts.headD 0
      · right; rw [h] at hne; exact fun h2 => hne h2.symm
      · left; exact h
    rw [if_pos hor]
    simp
  | case3 v f ts v2 f2 rest2 hne ih =>
    intro hnd hmg
    rw [collapse_two_ne _ _ _ _ _ _ hne] at hmg ⊢
    rw [List.map_cons] at hnd
    have := ih hnd.of_cons hmg
    simp only [ne_eq, List.append_eq_nil, not_and]
    intro _
    exact this
  | case4 v f ts ih =>
    intro _ hmg
    rw [collapse_one] at hmg
    simp at hmg

/-! ### `writeLine` and `lineEntries` lemmas -/

theorem cell_set_self {b : Board} {i : Nat} (h : i < b.length) (x : Option Nat) :
    cell (b.set i x) i = x := by
  simp [cell, List.getD_eq_getElem?_getD, List.getElem?_set, h]

theorem cell_set_ne {b : Board} {i j : Nat} (h : i ≠ j) (x : Option Nat) :
    cell (b.set i x) j = cell b j := by
  simp [cell, List.getD_eq_getElem?_getD, List.getElem?_set_ne h]

theorem cell_some_lt {b : Board} {i v : Nat} (h : cell b i = some v) : i < b.length := by
  by_contra hlt
  rw [cell, List.getD_eq_getElem?_getD, List.getElem?_eq_none (by omega)] at h
  simp at h

theorem writeLine_length (is vs : List Nat) (b : Board) :
    (writeLine b is vs).length = b.length := by
  induction is generalizing b vs with
  | nil => simp [writeLine]
  | cons i is ih =>
    cases vs with
    | nil => rw [writeLine]; rw [ih]; simp
    | cons v vs => rw [writeLine]; rw [ih]; simp

theorem cell_writeLine_notMem (is vs : List Nat) (b : Board) (j : Nat)
    (h : j ∉ is) : cell (writeLine b is vs) j = cell b j := by
  induction is generalizing b vs with
  | nil => simp [writeLine]
  | cons i is ih =>
    have hij : i ≠ j := fun he => h (by simp [he])
    have hj : j ∉ is := fun he => h (by simp [he])
    cases vs with
    | nil => rw [writeLine, ih _ _ hj, cell_set_ne hij]
    | cons v vs => rw [writeLine, ih _ _ hj, cell_set_ne hij]

theorem cell_writeLine_pos (is vs : List Nat) (b : Board) (w t v : Nat)
    (hnd : is.Nodup) (ht : is[w]? = some t) (hv : vs[w]? = some v)
    (hlt : t < b.length) : cell (writeLine b is vs) t = some v := by
  induction is generalizing b vs w with
  | nil => simp at ht
  | cons i is ih =>
    cases vs with
    | nil => simp at hv
    | cons v0 vs =>
      rw [writeLine]
      cases w with
      | zero =>
        simp only [List.getElem?_cons_zero, Option.some.injEq] at ht hv
        subst ht; subst hv
        rw [cell_writeLine_notMem _ _ _ _ (List.nodup_cons.mp hnd).1]
        exact cell_set_self hlt _
      | succ w =>
        simp only [List.getElem?_cons_succ] at ht hv
        exact ih vs (b.set i (some v0)) w (List.nodup_cons.mp hnd).2 ht hv (by simpa using hlt)

/-- Writing a line fills exactly `vs.length` of the line's cells. -/
theorem writeLine_count (is vs : List Nat) (b : Board)
    (hnd : is.Nodup) (hin : ∀ i ∈ is, i < b.length) (hlen : vs.length ≤ is.length) :
    ((is.map (cell (writeLine b is vs))).countP (fun c => c.isSome)) = vs.length := by
  induction is generalizing b vs with
  | nil =>
    cases vs with
    | nil => simp
    | cons v vs => simp at hlen
  | cons i is ih =>
    have hi : i < b.length := hin i (by simp)
    have hnotmem : i ∉ is := (List.nodup_cons.mp hnd).1
    cases vs with
    | nil =>
      rw [writeLine]
      simp only [List.map_cons, List.countP_cons]
      rw [cell_writeLine_notMem _ _ _ _ hnotmem, cell_set_self hi]
      have := ih [] (b.set i none) (List.nodup_cons.mp hnd).2
        (fun k hk => by simpa using hin k (by simp [hk])) (by simp)
      simpa using this
    | cons v vs =>
      rw [writeLine]
      simp only [List.map_cons, List.countP_cons]
      rw [cell_writeLine_notMem _ _ _ _ hnotmem, cell_set_self hi]
      have := ih vs (b.set i (some v)) (List.nodup_cons.mp hnd).2
        (fun k hk => by simpa using hin k (by simp [hk]))
        (by simpa using Nat.le_of_succ_le_succ hlen)
      simp [this]

/-- Entries are faithful: each `(value, origin)` pair read for a line
really is a non-null cell of the board at that origin. -/
theorem lineEntries_mem (b : Board) (idxs : List Nat) :
    ∀ v f : Nat, (v, f) ∈ lineEntries b idxs → cell b f = some v ∧ f ∈ idxs := by
  intro v f h
  rw [lineEntries, List.mem_filterMap] at h
  obtain ⟨i, hi, hmap⟩ := h
  cases hc : cell b i with
  | none => rw [hc] at hmap; simp at hmap
  | some w =>
    rw [hc] at hmap
    have hwv : w = v ∧ i = f := by simpa [Prod.ext_iff] using hmap
    obtain ⟨rfl, rfl⟩ := hwv
    exact ⟨hc, hi⟩

/-- The entry origins are the line's indices in order, restricted to
non-null cells: a sublist of the index list. -/
theorem lineEntries_snd_sublist (b : Board) (idxs : List Nat) :
    ((lineEntries b idxs).map Prod.snd).Sublist idxs := by
  induction idxs with
  | nil => simp [lineEntries]
  | cons i is ih =>
    rw [lineEntries, List.filterMap_cons]
    cases hc : cell b i with
    | none => exact ih.cons i
    | some v => simpa [lineEntries] using ih.cons₂ i

theorem lineEntries_length_le (b : Board) (idxs : List Nat) :
    (lineEntries b idxs).length ≤ idxs.length := by
  simpa using (lineEntries_snd_sublist b idxs).length_le

/-- The number of entries of a line is the number of its non-null cells. -/
theorem lineEntries_length_eq_count (b : Board) (idxs : List Nat) :
    (lineEntries b idxs).length = (idxs.map (cell b)).countP (fun c => c.isSome) := by
  induction idxs with
  | nil => simp [lineEntries]
  | cons i is ih =>
    have step : lineEntries b (i :: is) =
        ((cell b i).map (fun v => (v, i))).toList ++ lineEntries b is := by
      rw [lineEntries, List.filterMap_cons]
      cases cell b i <;> simp [lineEntries]
    rw [step, List.map_cons, List.countP_cons, List.length_append, ih]
    cases cell b i
    · simp
    · simp
      omega

/-! ### `processLineG` / `runLines` structure -/

theorem processLineG_moves (g : Game) (l : List Nat) :
    (processLineG g l).moves = g.moves := rfl

theorem processLineG_gameOver (g : Game) (l : List Nat) :
    (processLineG g l).gameOver = g.gameOver := rfl

theorem processLineG_won (g : Game) (l : List Nat) :
    (processLineG g l).won = g.won := rfl

theorem processLineG_newTile (g : Game) (l : List Nat) :
    (processLineG g l).newTile = g.newTile := rfl

theorem processLineG_boardBefore (g : Game) (l : List Nat) :
    (processLineG g l).boardBefore = g.boardBefore := rfl

theorem processLineG_boardAfterMove (g : Game) (l : List Nat) :
    (processLineG g l).boardAfterMove = g.boardAfterMove := rfl

theorem processLineG_board_length (g : Game) (l : List Nat) :
    (processLineG g l).board.length = g.board.length := by
  simp [processLineG, writeLine_length]

theorem processLineG_cell_notMem (g : Game) (l : List Nat) (j : Nat) (h : j ∉ l) :
    cell (processLineG g l).board j = cell g.board j := by
  simp [processLineG, cell_writeLine_notMem _ _ _ _ h]

theorem runLines_moves (ls : List (List Nat)) (g : Game) :
    (runLines g ls).moves = g.moves := by
  induction ls generalizing g with
  | nil => rfl
  | cons l ls ih => rw [runLines, List.foldl_cons]; exact ih (processLineG g l)

theorem runLines_gameOver (ls : List (List Nat)) (g : Game) :
    (runLines g ls).gameOver = g.gameOver := by
  induction ls generalizing g with
  | nil => rfl
  | cons l ls ih => rw [runLines, List.foldl_cons]; exact ih (processLineG g l)

theorem runLines_won (ls : List (List Nat)) (g : Game) :
    (runLines g ls).won = g.won := by
  induction ls generalizing g with
  | nil => rfl
  | cons l ls ih => rw [runLines, List.foldl_cons]; exact ih (processLineG g l)

theorem runLines_newTile (ls : List (List Nat)) (g : Game) :
    (runLines g ls).newTile = g.newTile := by
  induction ls generalizing g with
  | nil => rfl
  | cons l ls ih => rw [runLines, List.foldl_cons]; exact ih (processLineG g l)

theorem runLines_boardBefore (ls : List (List Nat)) (g : Game) :
    (runLines g ls).boardBefore = g.boardBefore := by
  induction ls generalizing g with
  | nil => rfl
  | cons l ls ih => rw [runLines, List.foldl_cons]; exact ih (processLineG g l)

theorem runLines_boardAfterMove (ls : List (List Nat)) (g : Game) :
    (runLines g ls).boardAfterMove = g.boardAfterMove := by
  induction ls generalizing g with
  | nil => rfl
  | cons l ls ih => rw [runLines, List.foldl_cons]; exact ih (processLineG g l)

theorem runLines_board_length (ls : List (List Nat)) (g : Game) :
    (runLines g ls).board.length = g.board.length := by
  induction ls generalizing g with
  | nil => rfl
  | cons l ls ih =>
    rw [runLines, List.foldl_cons]
    rw [show (List.foldl processLineG (processLineG g l) ls) = runLines (processLineG g l) ls from rfl]
    rw [ih (processLineG g l), processLineG_board_length]

theorem runLines_cell_notMem (ls : List (List Nat)) (g : Game) (j : Nat)
    (h : ∀ l ∈ ls, j ∉ l) : cell (runLines g ls).board j = cell g.board j := by
  induction ls generalizing g with
  | nil => rfl
  | cons l ls ih =>
    rw [runLines, List.foldl_cons]
    rw [show (List.foldl processLineG (processLineG g l) ls) = runLines (processLineG g l) ls from rfl]
    rw [ih (processLineG g l) (fun l2 h2 => h l2 (by simp [h2]))]
    exact processLineG_cell_notMem g l j (h l (by simp))

/-- Full specification of one line pass: how the metadata, the tile
sets, the score and the board change. -/
theorem processLine_spec (g : Game) (l : List Nat)
    (hb : 16 ≤ g.board.length) (hnd : l.Nodup) (hlt : ∀ i ∈ l, i < 16) :
    ∃ addM addG addMv addMg,
      (processLineG g l).metaMoves = g.metaMoves ++ addM ∧
      (processLineG g l).metaMerges = g.metaMerges ++ addG ∧
      (processLineG g l).movedTiles = g.movedTiles ++ addMv ∧
      (processLineG g l).mergedTiles = g.mergedTiles ++ addMg ∧
      (processLineG g l).score = g.score + mergeScore addG ∧
      (addM.map Prod.fst).Nodup ∧
      (∀ p ∈ addM, p.1 ≠ p.2 ∧ (∃ v : Nat, cell g.board p.1 = some v) ∧
        (∃ v : Nat, cell (processLineG g l).board p.2 = some v) ∧ p.1 ∈ l ∧ p.2 ∈ l) ∧
      (∀ m ∈ addG,
        (∃ v : Nat, cell g.board m.src.1 = some v ∧ cell g.board m.src.2 = some v ∧
          m.newKind = v + 1) ∧
        cell (processLineG g l).board m.dst = some m.newKind ∧ m.dst ∈ l ∧
        m.src.1 ∈ l ∧ m.src.2 ∈ l) ∧
      (addMg ≠ [] → addMv ≠ []) ∧
      ((l.map (cell g.board)).countP (fun c => c.isSome) =
        (l.map (cell (processLineG g l).board)).countP (fun c => c.isSome) + addG.length) := by
  classical
  set es := lineEntries g.board l with hes
  set o := collapse es l with ho
  have hsnd : (es.map Prod.snd).Sublist l := lineEntries_snd_sublist g.board l
  have hsndnd : (es.map Prod.snd).Nodup := hsnd.nodup hnd
  have hlen : es.length ≤ l.length := lineEntries_length_le g.board l
  have hboard : (processLineG g l).board = writeLine g.board l o.vals := rfl
  refine ⟨o.movs, o.mergs, o.movedT, o.mergedT, rfl, rfl, rfl, rfl, ?_, ?_, ?_, ?_, ?_, ?_⟩
  · show g.score + o.score = g.score + mergeScore o.mergs
    rw [collapse_score]
  · exact ((collapse_movs_sublist es l).trans hsnd).nodup hnd
  · intro p hp
    refine ⟨collapse_movs_ne es l p hp, ?_, ?_, ?_, ?_⟩
    · have h1 : p.1 ∈ es.map Prod.snd :=
        (collapse_movs_sublist es l).subset (List.mem_map_of_mem Prod.fst hp)
      obtain ⟨⟨v, f⟩, hmem, hf⟩ := List.mem_map.mp h1
      simp only at hf
      subst hf
      exact ⟨v, (lineEntries_mem g.board l v p.1 hmem).1⟩
    · obtain ⟨w, x, hw1, hw2⟩ := collapse_movs_pos es l hlen p hp
      have hmem2 : p.2 ∈ l := List.getElem?_mem hw1
      exact ⟨x, by
        rw [hboard]
        exact cell_writeLine_pos l o.vals g.board w p.2 x hnd hw1 hw2
          (lt_of_lt_of_le (hlt p.2 hmem2) hb)⟩
    · have h1 : p.1 ∈ es.map Prod.snd :=
        (collapse_movs_sublist es l).subset (List.mem_map_of_mem Prod.fst hp)
      exact hsnd.subset h1
    · obtain ⟨w, x, hw1, _⟩ := collapse_movs_pos es l hlen p hp
      exact List.getElem?_mem hw1
  · intro m hm
    obtain ⟨i, v, h1, h2, h3⟩ := collapse_merge_adj es l m hm
    have hm1 : (v, m.src.1) ∈ es := List.getElem?_mem h1
    have hm2 : (v, m.src.2) ∈ es := List.getElem?_mem h2
    refine ⟨⟨v, (lineEntries_mem g.board l v m.src.1 hm1).1,
      (lineEntries_mem g.board l v m.src.2 hm2).1, h3⟩, ?_, ?_, ?_, ?_⟩
    · obtain ⟨w, hw1, hw2⟩ := collapse_merge_pos es l hlen m hm
      have hmem2 : m.dst ∈ l := List.getElem?_mem hw1
      rw [hboard]
      exact cell_writeLine_pos l o.vals g.board w m.dst m.newKind hnd hw1 hw2
        (lt_of_lt_of_le (hlt m.dst hmem2) hb)
    · obtain ⟨w, hw1, _⟩ := collapse_merge_pos es l hlen m hm
      exact List.getElem?_mem hw1
    · exact (lineEntries_mem g.board l v m.src.1 hm1).2
    · exact (lineEntries_mem g.board l v m.src.2 hm2).2
  · exact collapse_merged_movedT es l hsndnd
  · have hcount : (l.map (cell g.board)).countP (fun c => c.isSome) = es.length :=
      (lineEntries_length_eq_count g.board l).symm
    have hcc : es.length = o.vals.length + o.mergs.length := by
      rw [ho]; exact collapse_count es l
    have hvals : o.vals.length ≤ l.length := by omega
    have hwc : ((l.map (cell (processLineG g l).board)).countP (fun c => c.isSome)) =
        o.vals.length := by
      rw [hboard]
      exact writeLine_count l o.vals g.board hnd
        (fun i hi => lt_of_lt_of_le (hlt i hi) hb) hvals
    omega


/-- Full specification of a directional move's four line passes over
pairwise-disjoint lines. -/
theorem runLines_spec (ls : List (List Nat)) (g : Game)
    (hb : 16 ≤ g.board.length)
    (hl : ∀ l ∈ ls, l.Nodup ∧ ∀ i ∈ l, i < 16)
    (hdisj : ls.Pairwise (fun l1 l2 => ∀ i ∈ l1, i ∉ l2)) :
    ∃ addM addG addMv addMg,
      (runLines g ls).metaMoves = g.metaMoves ++ addM ∧
      (runLines g ls).metaMerges = g.metaMerges ++ addG ∧
      (runLines g ls).movedTiles = g.movedTiles ++ addMv ∧
      (runLines g ls).mergedTiles = g.mergedTiles ++ addMg ∧
      (runLines g ls).score = g.score + mergeScore addG ∧
      (addM.map Prod.fst).Nodup ∧
      (∀ p ∈ addM, p.1 ≠ p.2 ∧ (∃ v : Nat, cell g.board p.1 = some v) ∧
        (∃ v : Nat, cell (runLines g ls).board p.2 = some v) ∧
        p.1 ∈ ls.flatten ∧ p.2 ∈ ls.flatten) ∧
      (∀ m ∈ addG,
        (∃ v : Nat, cell g.board m.src.1 = some v ∧ cell g.board m.src.2 = some v ∧
          m.newKind = v + 1) ∧
        cell (runLines g ls).board m.dst = some m.newKind ∧ m.dst ∈ ls.flatten ∧
        m.src.1 ∈ ls.flatten ∧ m.src.2 ∈ ls.flatten) ∧
      (addMg ≠ [] → addMv ≠ []) ∧
      ((ls.map (fun l => (l.map (cell g.board)).countP (fun c => c.isSome))).sum =
        (ls.map (fun l => (l.map (cell (runLines g ls).board)).countP
          (fun c => c.isSome))).sum + addG.length) := by
  induction ls generalizing g with
  | nil =>
    exact ⟨[], [], [], [], by simp [runLines], by simp [runLines], by simp [runLines],
      by simp [runLines], by simp [runLines, mergeScore], by simp, by simp, by simp,
      by simp, by simp [runLines]⟩
  | cons l rest ih =>
    obtain ⟨hnd, hlt⟩ := hl l (by simp)
    obtain ⟨hdisj1, hdisj2⟩ := List.pairwise_cons.mp hdisj
    obtain ⟨aM1, aG1, aMv1, aMg1, e1, e2, e3, e4, e5, nd1, pm1, pg1, mm1, cnt1⟩ :=
      processLine_spec g l hb hnd hlt
    have hb1 : 16 ≤ (processLineG g l).board.length := by
      rw [processLineG_board_length]; exact hb
    obtain ⟨aM2, aG2, aMv2, aMg2, f1, f2, f3, f4, f5, nd2, pm2, pg2, mm2, cnt2⟩ :=
      ih (processLineG g l) hb1 (fun l2 h2 => hl l2 (by simp [h2])) hdisj2
    have hrun : runLines g (l :: rest) = runLines (processLineG g l) rest := rfl
    -- cells of the head line survive the remaining (disjoint) lines
    have hkeep : ∀ j ∈ l, cell (runLines (processLineG g l) rest).board j =
        cell (processLineG g l).board j := by
      intro j hj
      exact runLines_cell_notMem rest (processLineG g l) j
        (fun l2 h2 hj2 => hdisj1 l2 h2 j hj hj2)
    -- cells of the remaining lines are untouched by the head pass
    have hpre : ∀ l2 ∈ rest, ∀ j ∈ l2,
        cell (processLineG g l).board j = cell g.board j := by
      intro l2 h2 j hj
      exact processLineG_cell_notMem g l j (fun hjl => hdisj1 l2 h2 j hjl hj)
    refine ⟨aM1 ++ aM2, aG1 ++ aG2, aMv1 ++ aMv2, aMg1 ++ aMg2, ?_, ?_, ?_, ?_, ?_, ?_,
      ?_, ?_, ?_, ?_⟩
    · rw [hrun, f1, e1, List.append_assoc]
    · rw [hrun, f2, e2, List.append_assoc]
    · rw [hrun, f3, e3, List.append_assoc]
    · rw [hrun, f4, e4, List.append_assoc]
    · rw [hrun, f5, e5, mergeScore_append]; omega
    · rw [List.map_append]
      refine List.Nodup.append nd1 nd2 ?_
      intro a ha1 ha2
      obtain ⟨p1, hp1, hp1a⟩ := List.mem_map.mp ha1
      obtain ⟨p2, hp2, hp2a⟩ := List.mem_map.mp ha2
      have hin1 : a ∈ l := by rw [← hp1a]; exact (pm1 p1 hp1).2.2.2.1
      have hin2 : a ∈ rest.flatten := by rw [← hp2a]; exact (pm2 p2 hp2).2.2.2.1
      obtain ⟨l2, h2, hal2⟩ := List.mem_flatten.mp hin2
      exact hdisj1 l2 h2 a hin1 hal2
    · intro p hp
      rcases List.mem_append.mp hp with h | h
      · obtain ⟨hne, ⟨v, hv⟩, ⟨x, hx⟩, hm1, hm2⟩ := pm1 p h
        refine ⟨hne, ⟨v, hv⟩, ⟨x, ?_⟩, List.mem_flatten.mpr ⟨l, by simp, hm1⟩,
          List.mem_flatten.mpr ⟨l, by simp, hm2⟩⟩
        rw [hrun, hkeep p.2 hm2]; exact hx
      · obtain ⟨hne, ⟨v, hv⟩, ⟨x, hx⟩, hm1, hm2⟩ := pm2 p h
        obtain ⟨l2, h2, hpl2⟩ := List.mem_flatten.mp hm1
        obtain ⟨l3, h3, hpl3⟩ := List.mem_flatten.mp hm2
        refine ⟨hne, ⟨v, ?_⟩, ⟨x, by rw [hrun]; exact hx⟩,
          List.mem_flatten.mpr ⟨l2, by simp [h2], hpl2⟩,
          List.mem_flatten.mpr ⟨l3, by simp [h3], hpl3⟩⟩
        rw [← hpre l2 h2 p.1 hpl2]; exact hv
    · intro m hm
      rcases List.mem_append.mp hm with h | h
      · obtain ⟨⟨v, hv1, hv2, hv3⟩, hdst, hmem, hs1, hs2⟩ := pg1 m h
        refine ⟨⟨v, hv1, hv2, hv3⟩, ?_, List.mem_flatten.mpr ⟨l, by simp, hmem⟩,
          List.mem_flatten.mpr ⟨l, by simp, hs1⟩,
          List.mem_flatten.mpr ⟨l, by simp, hs2⟩⟩
        rw [hrun, hkeep m.dst hmem]; exact hdst
      · obtain ⟨⟨v, hv1, hv2, hv3⟩, hdst, hmem, hs1, hs2⟩ := pg2 m h
        obtain ⟨l2, h2, hml2⟩ := List.mem_flatten.mp hmem
        obtain ⟨l4, h4, hml4⟩ := List.mem_flatten.mp hs1
        obtain ⟨l5, h5, hml5⟩ := List.mem_flatten.mp hs2
        refine ⟨⟨v, ?_, ?_, hv3⟩, by rw [hrun]; exact hdst,
          List.mem_flatten.mpr ⟨l2, by simp [h2], hml2⟩,
          List.mem_flatten.mpr ⟨l4, by simp [h4], hml4⟩,
          List.mem_flatten.mpr ⟨l5, by simp [h5], hml5⟩⟩
        · rw [← hpre l4 h4 m.src.1 hml4]; exact hv1
        · rw [← hpre l5 h5 m.src.2 hml5]; exact hv2
    · intro hne
      have : aMg1 ≠ [] ∨ aMg2 ≠ [] := by
        by_contra hc
        push_neg at hc
        rw [hc.1, hc.2] at hne
        exact hne rfl
      rcases this with h | h
      · have := mm1 h
        simp [this]
      · have := mm2 h
        simp [this]
    · simp only [List.map_cons, List.sum_cons]
      have hrestg : (rest.map (fun l2 => (l2.map (cell g.board)).countP
          (fun c => c.isSome))).sum =
          (rest.map (fun l2 => (l2.map (cell (processLineG g l).board)).countP
            (fun c => c.isSome))).sum := by
        refine congrArg List.sum (List.map_congr_left ?_)
        intro l2 h2
        refine congrArg _ (List.map_congr_left ?_)
        intro j hj
        exact (hpre l2 h2 j hj).symm
      have hheadkeep : (l.map (cell (runLines g (l :: rest)).board)).countP
          (fun c => c.isSome) =
          (l.map (cell (processLineG g l).board)).countP (fun c => c.isSome) := by
        refine congrArg _ (List.map_congr_left ?_)
        intro j hj
        rw [hrun]; exact hkeep j hj
      rw [hheadkeep, hrestg]
      rw [hrun]
      simp only [List.length_append]
      omega

/-! ### `checkGameStatus`, `canMove`, `applyDir`, `move` structure -/

theorem checkGameStatus_eq (g : Game) :
    checkGameStatus g = { g with
      won := g.won || g.board.contains (some 10),
      gameOver := g.gameOver || !canMove g.board } := by
  obtain ⟨b, sc, mv, go, wn, wm, mvt, mgt, nt, bb, ba, mm, mg⟩ := g
  unfold checkGameStatus
  by_cases h10 : some 10 ∈ b <;>
    by_cases hcm : canMove b = true <;>
      simp [h10, hcm]

theorem canMove_eq_true_iff (b : Board) :
    canMove b = true ↔
      (b.contains none = true ∨ ∃ i < 4, ∃ j < 4,
        (j < 3 ∧ cell b (i * 4 + j) = cell b (i * 4 + j + 1)) ∨
        (i < 3 ∧ cell b (i * 4 + j) = cell b (i * 4 + j + 4))) := by
  unfold canMove
  simp [List.any_eq_true, List.mem_range]

theorem canMove_eq_false_iff (b : Board) :
    canMove b = false ↔
      (b.contains none = false ∧ ∀ i < 4, ∀ j < 4,
        (j < 3 → cell b (i * 4 + j) ≠ cell b (i * 4 + j + 1)) ∧
        (i < 3 → cell b (i * 4 + j) ≠ cell b (i * 4 + j + 4))) := by
  rw [Bool.eq_false_iff, Ne, canMove_eq_true_iff]
  push_neg
  constructor
  · intro ⟨h1, h2⟩
    refine ⟨by simpa using h1, ?_⟩
    intro i hi j hj
    have h3 := h2 i hi j hj
    exact ⟨fun hj3 => (h3.1 hj3), fun hi3 => (h3.2 hi3)⟩
  · intro ⟨h1, h2⟩
    refine ⟨by simpa using h1, ?_⟩
    intro i hi j hj
    have h3 := h2 i hi j hj
    exact ⟨fun hj3 => (h3.1 hj3), fun hi3 => (h3.2 hi3)⟩

/-- Every direction's lines are in-range, duplicate-free and pairwise
disjoint. -/
theorem dirLines_ok : ∀ ls ∈ allDirLines,
    (∀ l ∈ ls, l.Nodup ∧ ∀ i ∈ l, i < 16) ∧
    ls.Pairwise (fun l1 l2 => ∀ i ∈ l1, i ∉ l2) := by
  decide

theorem applyDir_eq_some {d : String} {g g2 : Game}
    (h : applyDir d g = some g2) : ∃ ls ∈ allDirLines, g2 = runLines g ls := by
  unfold applyDir at h
  split_ifs at h
  · exact ⟨leftLines, by simp [allDirLines], (Option.some.inj h).symm⟩
  · exact ⟨rightLines, by simp [allDirLines], (Option.some.inj h).symm⟩
  · exact ⟨upLines, by simp [allDirLines], (Option.some.inj h).symm⟩
  · exact ⟨downLines, by simp [allDirLines], (Option.some.inj h).symm⟩

theorem clearScratch_board (g : Game) : (clearScratch g).board = g.board := rfl

theorem clearScratch_boardBefore (g : Game) :
    (clearScratch g).boardBefore = g.board := rfl

theorem clearScratch_score (g : Game) : (clearScratch g).score = g.score := rfl

theorem clearScratch_moves (g : Game) : (clearScratch g).moves = g.moves := rfl

theorem clearScratch_gameOver (g : Game) :
    (clearScratch g).gameOver = g.gameOver := rfl

theorem clearScratch_won (g : Game) : (clearScratch g).won = g.won := rfl

theorem clearScratch_metaMoves (g : Game) : (clearScratch g).metaMoves = [] := rfl

theorem clearScratch_metaMerges (g : Game) : (clearScratch g).metaMerges = [] := rfl

theorem clearScratch_movedTiles (g : Game) : (clearScratch g).movedTiles = [] := rfl

theorem clearScratch_mergedTiles (g : Game) : (clearScratch g).mergedTiles = [] := rfl

theorem clearScratch_newTile (g : Game) : (clearScratch g).newTile = none := rfl

theorem move_of_gameOver (g : Game) (d : String) (p : Nat) (r : Bool)
    (h : g.gameOver = true) : move d p r g = (g, false) := by
  unfold move
  rw [if_pos h]

theorem move_of_invalid (g : Game) (d : String) (p : Nat) (r : Bool)
    (hgo : g.gameOver = false)
    (h1 : ¬d = "left") (h2 : ¬d = "right") (h3 : ¬d = "up") (h4 : ¬d = "down") :
    move d p r g = (clearScratch g, false) := by
  have happ : applyDir d (clearScratch g) = none := by
    unfold applyDir
    rw [if_neg h1, if_neg h2, if_neg h3, if_neg h4]
  simp only [move, hgo, Bool.false_eq_true, if_false, happ]

theorem move_eq_none (g : Game) (d : String) (p : Nat) (r : Bool)
    (hgo : g.gameOver = false) (happ : applyDir d (clearScratch g) = none) :
    move d p r g = (clearScratch g, false) := by
  simp only [move, hgo, Bool.false_eq_true, if_false, happ]

theorem move_eq_nochange (g g2 : Game) (d : String) (p : Nat) (r : Bool)
    (hgo : g.gameOver = false) (happ : applyDir d (clearScratch g) = some g2)
    (hbe : boardsEqual g.board g2.board = true) :
    move d p r g = (g2, false) := by
  simp only [move, hgo, Bool.false_eq_true, if_false, clearScratch_boardBefore,
    happ, hbe, if_true]

theorem move_eq_accept (g g2 : Game) (d : String) (p : Nat) (r : Bool)
    (hgo : g.gameOver = false) (happ : applyDir d (clearScratch g) = some g2)
    (hbe : boardsEqual g.board g2.board = false) :
    move d p r g =
      (checkGameStatus { g2 with
        boardAfterMove := g2.board,
        moves := g2.moves + 1,
        board := (addNewTile p r g2.board).fst,
        newTile := (addNewTile p r g2.board).snd }, true) := by
  simp only [move, hgo, Bool.false_eq_true, if_false, clearScratch_boardBefore,
    happ, hbe]

/-- Structure of an accepted move: some direction's lines ran on the
scratch-cleared state, the board changed, and the result is the
post-status-check state with one spawned tile. -/
theorem move_true_spec (g : Game) (d : String) (p : Nat) (r : Bool)
    (h : (move d p r g).snd = true) :
    ∃ g2, applyDir d (clearScratch g) = some g2 ∧
      boardsEqual g.board g2.board = false ∧
      g.gameOver = false ∧
      (move d p r g).fst =
        checkGameStatus { g2 with
          boardAfterMove := g2.board,
          moves := g2.moves + 1,
          board := (addNewTile p r g2.board).fst,
          newTile := (addNewTile p r g2.board).snd } := by
  have hgo : g.gameOver = false := by
    by_contra hc
    rw [move_of_gameOver g d p r (by simpa using hc)] at h
    simp at h
  cases happ : applyDir d (clearScratch g) with
  | none =>
    rw [move_eq_none g d p r hgo happ] at h
    simp at h
  | some g2 =>
    by_cases hbe : boardsEqual g.board g2.board = true
    · rw [move_eq_nochange g g2 d p r hgo happ hbe] at h
      simp at h
    · have hbe2 : boardsEqual g.board g2.board = false := by simpa using hbe
      rw [move_eq_accept g g2 d p r hgo happ hbe2]
      exact ⟨g2, rfl, hbe2, hgo, rfl⟩

/-- Structure of a rejected move: either the game was over (full no-op),
the direction was invalid (scratch state cleared), or the board did not
change (scratch cleared, lines re-written in place). -/
theorem move_false_spec (g : Game) (d : String) (p : Nat) (r : Bool)
    (h : (move d p r g).snd = false) :
    (g.gameOver = true ∧ (move d p r g).fst = g) ∨
    (g.gameOver = false ∧ applyDir d (clearScratch g) = none ∧
      (move d p r g).fst = clearScratch g) ∨
    (g.gameOver = false ∧ ∃ g2, applyDir d (clearScratch g) = some g2 ∧
      boardsEqual g.board g2.board = true ∧ (move d p r g).fst = g2) := by
  by_cases hgo : g.gameOver = true
  · rw [move_of_gameOver g d p r hgo]
    exact Or.inl ⟨hgo, rfl⟩
  · have hgo2 : g.gameOver = false := by simpa using hgo
    cases happ : applyDir d (clearScratch g) with
    | none =>
      rw [move_eq_none g d p r hgo2 happ]
      exact Or.inr (Or.inl ⟨hgo2, rfl, rfl⟩)
    | some g2 =>
      by_cases hbe : boardsEqual g.board g2.board = true
      · rw [move_eq_nochange g g2 d p r hgo2 happ hbe]
        exact Or.inr (Or.inr ⟨hgo2, g2, rfl, hbe, rfl⟩)
      · have hbe2 : boardsEqual g.board g2.board = false := by simpa using hbe
        rw [move_eq_accept g g2 d p r hgo2 happ hbe2] at h
        simp at h

/-! ### Board comparison and the no-change analysis -/

theorem boardsEqual_iff (a b : Board) :
    boardsEqual a b = true ↔ ∀ i < 16, cell a i = cell b i := by
  unfold boardsEqual
  simp [List.all_eq_true, List.mem_range]

theorem board_eq_of_cells {a b : Board} (hlen : a.length = b.length)
    (h : ∀ i : Nat, cell a i = cell b i) : a = b := by
  apply List.ext_getElem?
  intro i
  by_cases hi : i < a.length
  · cases haa : a[i]? with
    | none => rw [List.getElem?_eq_none_iff] at haa; omega
    | some x =>
      cases hbb : b[i]? with
      | none => rw [List.getElem?_eq_none_iff] at hbb; omega
      | some y =>
        have hc := h i
        rw [cell, cell, List.getD_eq_getElem?_getD, List.getD_eq_getElem?_getD,
          haa, hbb] at hc
        simpa using hc
  · rw [List.getElem?_eq_none (by omega), List.getElem?_eq_none (by omega)]

theorem addNewTile_fst_length (p : Nat) (r : Bool) (b : Board) :
    (addNewTile p r b).fst.length = b.length := by
  simp only [addNewTile]
  split
  · rfl
  · simp

/-- A no-change line run leaves the board (as a list) and the score
untouched, and emits no merge records. -/
theorem nochange_spec (g : Game) (ls : List (List Nat))
    (hb : g.board.length = 16)
    (hls : ls ∈ allDirLines)
    (hbe : boardsEqual g.board (runLines (clearScratch g) ls).board = true) :
    (runLines (clearScratch g) ls).board = g.board ∧
    (runLines (clearScratch g) ls).score = g.score ∧
    (runLines (clearScratch g) ls).metaMerges = [] := by
  obtain ⟨hok, hdisj⟩ := dirLines_ok ls hls
  have hb2 : 16 ≤ (clearScratch g).board.length := by rw [clearScratch_board]; omega
  obtain ⟨aM, aG, aMv, aMg, e1, e2, e3, e4, e5, _, _, _, _, cnt⟩ :=
    runLines_spec ls (clearScratch g) hb2 hok hdisj
  have hcells : ∀ i, i < 16 → cell g.board i =
      cell (runLines (clearScratch g) ls).board i :=
    (boardsEqual_iff _ _).mp hbe
  -- the in-line cell maps agree, so the non-null counts agree
  have hmaps : ∀ l ∈ ls, l.map (cell (clearScratch g).board) =
      l.map (cell (runLines (clearScratch g) ls).board) := by
    intro l hl
    refine List.map_congr_left ?_
    intro i hi
    rw [clearScratch_board]
    exact hcells i ((hok l hl).2 i hi)
  have hsums : (ls.map (fun l => (l.map (cell (clearScratch g).board)).countP
      (fun c => c.isSome))).sum =
      (ls.map (fun l => (l.map (cell (runLines (clearScratch g) ls).board)).countP
        (fun c => c.isSome))).sum := by
    refine congrArg List.sum (List.map_congr_left ?_)
    intro l hl
    rw [hmaps l hl]
  have haG : aG = [] := by
    rw [hsums] at cnt
    have : aG.length = 0 := by omega
    exact List.eq_nil_of_length_eq_zero this
  refine ⟨?_, ?_, ?_⟩
  · -- list-level equality of the boards
    have hlen : (runLines (clearScratch g) ls).board.length = g.board.length := by
      rw [runLines_board_length, clearScratch_board]
    refine board_eq_of_cells hlen ?_
    intro i
    by_cases hi : i < 16
    · exact (hcells i hi).symm
    · have hnm : ∀ l ∈ ls, i ∉ l := by
        intro l hl hmem
        exact hi (lt_of_lt_of_le ((hok l hl).2 i hmem) (by omega))
      rw [runLines_cell_notMem ls (clearScratch g) i hnm, clearScratch_board]
  · rw [e5, haG, mergeScore_nil, clearScratch_score]
    omega
  · rw [e2, haG, clearScratch_metaMerges]
    rfl

theorem checkGameStatus_board (g : Game) : (checkGameStatus g).board = g.board := by
  rw [checkGameStatus_eq]

theorem checkGameStatus_score (g : Game) : (checkGameStatus g).score = g.score := by
  rw [checkGameStatus_eq]

theorem checkGameStatus_moves (g : Game) : (checkGameStatus g).moves = g.moves := by
  rw [checkGameStatus_eq]

theorem checkGameStatus_newTile (g : Game) :
    (checkGameStatus g).newTile = g.newTile := by
  rw [checkGameStatus_eq]

theorem checkGameStatus_boardAfterMove (g : Game) :
    (checkGameStatus g).boardAfterMove = g.boardAfterMove := by
  rw [checkGameStatus_eq]

theorem checkGameStatus_metaMoves (g : Game) :
    (checkGameStatus g).metaMoves = g.metaMoves := by
  rw [checkGameStatus_eq]

theorem checkGameStatus_metaMerges (g : Game) :
    (checkGameStatus g).metaMerges = g.metaMerges := by
  rw [checkGameStatus_eq]

theorem checkGameStatus_movedTiles (g : Game) :
    (checkGameStatus g).movedTiles = g.movedTiles := by
  rw [checkGameStatus_eq]

theorem checkGameStatus_mergedTiles (g : Game) :
    (checkGameStatus g).mergedTiles = g.mergedTiles := by
  rw [checkGameStatus_eq]

theorem checkGameStatus_gameOver (g : Game) :
    (checkGameStatus g).gameOver = (g.gameOver || !canMove g.board) := by
  rw [checkGameStatus_eq]

theorem checkGameStatus_won (g : Game) :
    (checkGameStatus g).won = (g.won || g.board.contains (some 10)) := by
  rw [checkGameStatus_eq]

/-- Everything the claims need about an accepted move, in one place. -/
theorem move_true_full (g : Game) (d : String) (p : Nat) (r : Bool)
    (hb : g.board.length = 16) (h : (move d p r g).snd = true) :
    g.gameOver = false ∧
    (move d p r g).fst.moves = g.moves + 1 ∧
    (move d p r g).fst.gameOver = (!canMove (move d p r g).fst.board) ∧
    (move d p r g).fst.board =
      (addNewTile p r (move d p r g).fst.boardAfterMove).fst ∧
    (move d p r g).fst.newTile =
      (addNewTile p r (move d p r g).fst.boardAfterMove).snd ∧
    (move d p r g).fst.score =
      g.score + mergeScore (move d p r g).fst.metaMerges ∧
    ((move d p r g).fst.metaMoves.map Prod.fst).Nodup ∧
    (∀ pr ∈ (move d p r g).fst.metaMoves, pr.1 ≠ pr.2 ∧
      (∃ v : Nat, cell g.board pr.1 = some v) ∧
      (∃ v : Nat, cell (move d p r g).fst.boardAfterMove pr.2 = some v)) ∧
    (∀ m ∈ (move d p r g).fst.metaMerges,
      (∃ v : Nat, cell g.board m.src.1 = some v ∧ cell g.board m.src.2 = some v ∧
        m.newKind = v + 1) ∧
      cell (move d p r g).fst.boardAfterMove m.dst = some m.newKind) ∧
    ((move d p r g).fst.mergedTiles ≠ [] → (move d p r g).fst.movedTiles ≠ []) := by
  obtain ⟨g2, happ, hbe, hgo, heq⟩ := move_true_spec g d p r h
  obtain ⟨ls, hls, hg2⟩ := applyDir_eq_some happ
  obtain ⟨hok, hdisj⟩ := dirLines_ok ls hls
  have hb2 : 16 ≤ (clearScratch g).board.length := by rw [clearScratch_board]; omega
  obtain ⟨aM, aG, aMv, aMg, e1, e2, e3, e4, e5, nd, pm, pg, mm, _⟩ :=
    runLines_spec ls (clearScratch g) hb2 hok hdisj
  rw [← hg2] at e1 e2 e3 e4 e5 pm pg
  simp only [clearScratch_metaMoves, clearScratch_metaMerges, clearScratch_movedTiles,
    clearScratch_mergedTiles, clearScratch_score, List.nil_append] at e1 e2 e3 e4 e5
  -- the spawn-and-count state fed to the status check
  have hfst := heq
  have hb3 : (move d p r g).fst.board = (addNewTile p r g2.board).fst := by
    rw [hfst, checkGameStatus_board]
  have hbam : (move d p r g).fst.boardAfterMove = g2.board := by
    rw [hfst, checkGameStatus_boardAfterMove]
  refine ⟨hgo, ?_, ?_, ?_, ?_, ?_, ?_, ?_, ?_, ?_⟩
  · rw [hfst, checkGameStatus_moves]
    show g2.moves + 1 = g.moves + 1
    rw [hg2, runLines_moves, clearScratch_moves]
  · rw [hfst, checkGameStatus_gameOver, checkGameStatus_board]
    have : g2.gameOver = false := by
      rw [hg2, runLines_gameOver, clearScratch_gameOver]; exact hgo
    show (g2.gameOver || !canMove (addNewTile p r g2.board).fst) = _
    rw [this, Bool.false_or]
  · rw [hb3, hbam]
  · rw [hfst, checkGameStatus_newTile, checkGameStatus_boardAfterMove]
  · rw [hfst, checkGameStatus_score, checkGameStatus_metaMerges]
    show g2.score = g.score + mergeScore g2.metaMerges
    rw [e5, e2]
  · rw [hfst, checkGameStatus_metaMoves, e1]
    exact nd
  · intro pr hpr
    rw [hfst, checkGameStatus_metaMoves, e1] at hpr
    obtain ⟨hne, ⟨v, hv⟩, ⟨x, hx⟩, _, _⟩ := pm pr hpr
    rw [clearScratch_board] at hv
    refine ⟨hne, ⟨v, hv⟩, ⟨x, ?_⟩⟩
    rw [hbam]
    exact hx
  · intro m hm
    rw [hfst, checkGameStatus_metaMerges, e2] at hm
    obtain ⟨⟨v, hv1, hv2, hv3⟩, hdst, _⟩ := pg m hm
    rw [clearScratch_board] at hv1 hv2
    refine ⟨⟨v, hv1, hv2, hv3⟩, ?_⟩
    rw [hbam]
    exact hdst
  · intro hmg
    rw [hfst, checkGameStatus_mergedTiles, e4] at hmg
    rw [hfst, checkGameStatus_movedTiles, e3]
    exact mm hmg

/-- C1: in every single-line compaction-and-merge pass, only
adjacent-in-reading-order equal-kind pairs merge (each merge pairs two
consecutive non-null entries of equal kind and produces that kind plus
one), no tile's cell appears in more than one merge (given distinct
line indices), and merge outputs are never re-scanned (the entry count
equals the output count plus the merge count); in particular the line
`[0,0,0,0]` moved left yields `[1,1,null,null]`, not
`[2,null,null,null]`. -/
theorem claim_C1 :
    (∀ (b : Board) (idxs : List Nat), idxs.Nodup →
      (∀ m ∈ (collapse (lineEntries b idxs) idxs).mergs,
        ∃ i v : Nat, (lineEntries b idxs)[i]? = some (v, m.src.1) ∧
          (lineEntries b idxs)[i + 1]? = some (v, m.src.2) ∧ m.newKind = v + 1) ∧
      ((collapse (lineEntries b idxs) idxs).mergs.flatMap
        (fun m => [m.src.1, m.src.2])).Nodup ∧
      (lineEntries b idxs).length =
        (collapse (lineEntries b idxs) idxs).vals.length +
          (collapse (lineEntries b idxs) idxs).mergs.length) ∧
    ((move "left" 0 false (mkTestGame
        ([some 0, some 0, some 0, some 0] ++ List.replicate 12 none))).fst.boardAfterMove =
      [some 1, some 1, none, none] ++ List.replicate 12 none ∧
     (move "left" 0 false (mkTestGame
        ([some 0, some 0, some 0, some 0] ++ List.replicate 12 none))).fst.boardAfterMove ≠
      [some 2, none, none, none] ++ List.replicate 12 none) := by
  constructor
  · intro b idxs hnd
    refine ⟨collapse_merge_adj _ _, ?_, collapse_count _ _⟩
    exact ((collapse_merge_srcs_sublist _ _).trans
      (lineEntries_snd_sublist b idxs)).nodup hnd
  · constructor
    · decide
    · decide

theorem claim_C1_witness :
    ((collapse (lineEntries
        ([some 0, some 0, some 0, some 0] ++ List.replicate 12 none) [0, 1, 2, 3])
        [0, 1, 2, 3]).mergs.flatMap (fun m => [m.src.1, m.src.2])).Nodup ∧
    (lineEntries ([some 0, some 0, some 0, some 0] ++ List.replicate 12 none)
        [0, 1, 2, 3]).length =
      (collapse (lineEntries ([some 0, some 0, some 0, some 0] ++
        List.replicate 12 none) [0, 1, 2, 3]) [0, 1, 2, 3]).vals.length +
      (collapse (lineEntries ([some 0, some 0, some 0, some 0] ++
        List.replicate 12 none) [0, 1, 2, 3]) [0, 1, 2, 3]).mergs.length :=
  ⟨(claim_C1.1 ([some 0, some 0, some 0, some 0] ++ List.replicate 12 none)
      [0, 1, 2, 3] (by decide)).2.1,
   (claim_C1.1 ([some 0, some 0, some 0, some 0] ++ List.replicate 12 none)
      [0, 1, 2, 3] (by decide)).2.2⟩

/-- C4 fails on the code: for the row `[0,null,0,0]` moved left, the
merge combines the zeros at line positions 0 and 2 (the first two
entries in reading order), not the adjacent zeros at positions 2 and 3:
the emitted merge record is `{from: [0, 2], to: 0}`. -/
theorem claim_C4_counterexample :
    (move "left" 0 false (mkTestGame
      ([some 0, none, some 0, some 0] ++ List.replicate 12 none))).snd = true ∧
    ((move "left" 0 false (mkTestGame
      ([some 0, none, some 0, some 0] ++ List.replicate 12 none))).fst.metaMerges.map
        (fun m => m.src)) = [(0, 2)] ∧
    ¬((2, 3) ∈ ((move "left" 0 false (mkTestGame
      ([some 0, none, some 0, some 0] ++ List.replicate 12 none))).fst.metaMerges.map
        (fun m => m.src))) ∧
    (move "left" 0 false (mkTestGame
      ([some 0, none, some 0, some 0] ++ List.replicate 12 none))).fst.boardAfterMove =
      [some 1, some 0, none, none] ++ List.replicate 12 none := by
  refine ⟨by decide, by decide, by decide, by decide⟩

/-- C4 amended: for any board whose row `r` holds `[0, null, 0, 0]`,
processing that row leftwards turns it into `[1, 0, null, null]` and
adds exactly 2 to the score; the merge combines the zero at line
position 0 with the zero at line position 2 (the first two non-null
entries in reading order), and the trailing zero at position 3 does not
merge. -/
theorem claim_C4 (g : Game) (rr : Nat) (_hr : rr < 4)
    (h0 : cell g.board (4 * rr) = some 0)
    (h1 : cell g.board (4 * rr + 1) = none)
    (h2 : cell g.board (4 * rr + 2) = some 0)
    (h3 : cell g.board (4 * rr + 3) = some 0) :
    cell (processLineG g [4 * rr, 4 * rr + 1, 4 * rr + 2, 4 * rr + 3]).board (4 * rr) = some 1 ∧
    cell (processLineG g [4 * rr, 4 * rr + 1, 4 * rr + 2, 4 * rr + 3]).board (4 * rr + 1) = some 0 ∧
    cell (processLineG g [4 * rr, 4 * rr + 1, 4 * rr + 2, 4 * rr + 3]).board (4 * rr + 2) = none ∧
    cell (processLineG g [4 * rr, 4 * rr + 1, 4 * rr + 2, 4 * rr + 3]).board (4 * rr + 3) = none ∧
    (processLineG g [4 * rr, 4 * rr + 1, 4 * rr + 2, 4 * rr + 3]).score = g.score + 2 ∧
    (processLineG g [4 * rr, 4 * rr + 1, 4 * rr + 2, 4 * rr + 3]).metaMerges =
      g.metaMerges ++ [⟨(4 * rr, 4 * rr + 2), 4 * rr, 1⟩] := by
  have l0 : 4 * rr < g.board.length := cell_some_lt h0
  have l2 : 4 * rr + 2 < g.board.length := cell_some_lt h2
  have l3 : 4 * rr + 3 < g.board.length := cell_some_lt h3
  have l1 : 4 * rr + 1 < g.board.length := by omega
  have he : lineEntries g.board [4 * rr, 4 * rr + 1, 4 * rr + 2, 4 * rr + 3] =
      [(0, 4 * rr), (0, 4 * rr + 2), (0, 4 * rr + 3)] := by
    simp [lineEntries, h0, h1, h2, h3]
  have hne1 : (4 * rr + 2) ≠ 4 * rr := by omega
  have hne2 : (4 * rr + 3) ≠ 4 * rr + 1 := by omega
  have hc : collapse [(0, 4 * rr), (0, 4 * rr + 2), (0, 4 * rr + 3)]
      [4 * rr, 4 * rr + 1, 4 * rr + 2, 4 * rr + 3] =
      ⟨[1, 0], 2, [4 * rr, 4 * rr + 1], [4 * rr],
        [(4 * rr + 2, 4 * rr), (4 * rr + 3, 4 * rr + 1)],
        [⟨(4 * rr, 4 * rr + 2), 4 * rr, 1⟩]⟩ := by
    rw [collapse_two_eq, collapse_one]
    simp [hne1, hne2]
  have hboard : (processLineG g [4 * rr, 4 * rr + 1, 4 * rr + 2, 4 * rr + 3]).board =
      writeLine g.board [4 * rr, 4 * rr + 1, 4 * rr + 2, 4 * rr + 3] [1, 0] := by
    show writeLine g.board _ (collapse (lineEntries g.board _) _).vals = _
    rw [he, hc]
  have hwrite : writeLine g.board [4 * rr, 4 * rr + 1, 4 * rr + 2, 4 * rr + 3] [1, 0] =
      (((g.board.set (4 * rr) (some 1)).set (4 * rr + 1) (some 0)).set
        (4 * rr + 2) none).set (4 * rr + 3) none := by
    rfl
  refine ⟨?_, ?_, ?_, ?_, ?_, ?_⟩
  · rw [hboard, hwrite]
    rw [cell_set_ne (by omega), cell_set_ne (by omega), cell_set_ne (by omega)]
    exact cell_set_self l0 _
  · rw [hboard, hwrite]
    rw [cell_set_ne (by omega), cell_set_ne (by omega)]
    have : ((g.board.set (4 * rr) (some 1))).length = g.board.length := by simp
    exact cell_set_self (by omega) _
  · rw [hboard, hwrite]
    rw [cell_set_ne (by omega)]
    have : (((g.board.set (4 * rr) (some 1)).set (4 * rr + 1) (some 0))).length =
        g.board.length := by simp
    exact cell_set_self (by omega) _
  · rw [hboard, hwrite]
    have : ((((g.board.set (4 * rr) (some 1)).set (4 * rr + 1) (some 0)).set
        (4 * rr + 2) none)).length = g.board.length := by simp
    exact cell_set_self (by omega) _
  · show g.score + (collapse (lineEntries g.board _) _).score = g.score + 2
    rw [he, hc]
  · show g.metaMerges ++ (collapse (lineEntries g.board _) _).mergs = _
    rw [he, hc]

theorem claim_C4_witness :
    cell (processLineG (mkTestGame ([some 0, none, some 0, some 0] ++
      List.replicate 12 none)) [4 * 0, 4 * 0 + 1, 4 * 0 + 2, 4 * 0 + 3]).board (4 * 0) =
        some 1 ∧
    (processLineG (mkTestGame ([some 0, none, some 0, some 0] ++
      List.replicate 12 none)) [4 * 0, 4 * 0 + 1, 4 * 0 + 2, 4 * 0 + 3]).score =
        (mkTestGame ([some 0, none, some 0, some 0] ++ List.replicate 12 none)).score + 2 := by
  have h := claim_C4 (mkTestGame ([some 0, none, some 0, some 0] ++
    List.replicate 12 none)) 0 (by decide) (by decide) (by decide) (by decide) (by decide)
  exact ⟨h.1, h.2.2.2.2.1⟩

/-- C7: `addNewTile` is a no-op returning `null` when the board has no
empty cell; otherwise it returns the chosen index, which held `null`
before, places the lowest kind (0) or, on a rare draw, the
second-lowest (1) there, and changes no other cell.  The rare draw is
`Math.random() < 0.1`: over a uniform draw `r ∈ [0,1)` the placed kind
is 1 exactly on `[0, 1/10)` (probability 0.1) and 0 exactly on
`[1/10, 1)` (probability 0.9). -/
theorem claim_C7 :
    (∀ (pick : Nat) (isRare : Bool) (b : Board), emptyIndices b = [] →
      addNewTile pick isRare b = (b, none)) ∧
    (∀ (pick : Nat) (isRare : Bool) (b : Board), emptyIndices b ≠ [] →
      ∃ i : Nat, (addNewTile pick isRare b).snd = some i ∧
        cell b i = none ∧
        cell (addNewTile pick isRare b).fst i = some (if isRare then 1 else 0) ∧
        (∀ j : Nat, j ≠ i → cell (addNewTile pick isRare b).fst j = cell b j)) ∧
    (∀ r : ℚ, 0 ≤ r → r < 1 →
      ((isRareDraw r = true ↔ r ∈ Set.Ico (0 : ℚ) (1 / 10)) ∧
       (isRareDraw r = false ↔ r ∈ Set.Ico (1 / 10 : ℚ) 1))) := by
  refine ⟨?_, ?_, ?_⟩
  · intro pick isRare b h
    simp only [addNewTile, h, if_true]
  · intro pick isRare b h
    have hlen : 0 < (emptyIndices b).length := List.length_pos.mpr h
    have hidx : (emptyIndices b).getD (pick % (emptyIndices b).length) 0 ∈
        emptyIndices b := by
      rw [List.getD_eq_getElem?_getD,
        List.getElem?_eq_getElem (Nat.mod_lt _ hlen)]
      exact List.getElem_mem _
    have hcell : cell b ((emptyIndices b).getD (pick % (emptyIndices b).length) 0) =
        none := by
      have := List.of_mem_filter hidx
      simpa using this
    have hrange : (emptyIndices b).getD (pick % (emptyIndices b).length) 0 <
        b.length := by
      have := List.mem_filter.mp hidx
      simpa using List.mem_range.mp this.1
    refine ⟨(emptyIndices b).getD (pick % (emptyIndices b).length) 0, ?_, hcell, ?_, ?_⟩
    · simp only [addNewTile, h, if_false]
    · simp only [addNewTile, h, if_false]
      exact cell_set_self hrange _
    · intro j hj
      simp only [addNewTile, h, if_false]
      exact cell_set_ne (fun he => hj he.symm) _
  · intro r h0 h1
    constructor
    · constructor
      · intro h
        have : r < 1 / 10 := by simpa [isRareDraw] using h
        exact ⟨h0, this⟩
      · intro h
        simpa [isRareDraw] using h.2
    · constructor
      · intro h
        have : ¬(r < 1 / 10) := by simpa [isRareDraw] using h
        exact ⟨le_of_not_lt this, h1⟩
      · intro h
        simpa [isRareDraw] using not_lt.mpr h.1

theorem claim_C7_witness :
    addNewTile 5 true (List.replicate 16 (some 3)) =
      (List.replicate 16 (some 3), none) ∧
    (∃ i : Nat, (addNewTile 0 false emptyBoard).snd = some i ∧
      cell emptyBoard i = none ∧
      cell (addNewTile 0 false emptyBoard).fst i = some (if false then 1 else 0) ∧
      (∀ j : Nat, j ≠ i → cell (addNewTile 0 false emptyBoard).fst j =
        cell emptyBoard j)) ∧
    (isRareDraw (1 / 20) = true ↔ (1 / 20 : ℚ) ∈ Set.Ico (0 : ℚ) (1 / 10)) := by
  refine ⟨?_, ?_, ?_⟩
  · exact claim_C7.1 5 true (List.replicate 16 (some 3)) (by decide)
  · exact claim_C7.2.1 0 false emptyBoard (by decide)
  · exact (claim_C7.2.2 (1 / 20) (by norm_num) (by norm_num)).1

theorem move_true_gameOver (g : Game) (d : String) (p : Nat) (r : Bool)
    (h : (move d p r g).snd = true) :
    (move d p r g).fst.gameOver = (!canMove (move d p r g).fst.board) := by
  obtain ⟨g2, happ, hbe, hgo, heq⟩ := move_true_spec g d p r h
  obtain ⟨ls, hls, hg2⟩ := applyDir_eq_some happ
  have hg2go : g2.gameOver = false := by
    rw [hg2, runLines_gameOver, clearScratch_gameOver]; exact hgo
  rw [heq, checkGameStatus_gameOver, checkGameStatus_board]
  show (g2.gameOver || !canMove (addNewTile p r g2.board).fst) = _
  rw [hg2go, Bool.false_or]

/-- C2: after every accepted move, `gameOver` is true exactly when the
board has no null cell and no two horizontally- or vertically-adjacent
cells are equal; a move against a finished game is a strict no-op, so
the flag stays true; `reset` clears the flag. -/
theorem claim_C2 :
    (∀ (g : Game) (d : String) (p : Nat) (r : Bool),
      (move d p r g).snd = true →
      ((move d p r g).fst.gameOver = true ↔
        ((move d p r g).fst.board.contains none = false ∧
          ∀ i < 4, ∀ j < 4,
            (j < 3 → cell (move d p r g).fst.board (i * 4 + j) ≠
              cell (move d p r g).fst.board (i * 4 + j + 1)) ∧
            (i < 3 → cell (move d p r g).fst.board (i * 4 + j) ≠
              cell (move d p r g).fst.board (i * 4 + j + 4))))) ∧
    (∀ (g : Game) (d : String) (p : Nat) (r : Bool),
      g.gameOver = true → move d p r g = (g, false)) ∧
    (∀ (p1 : Nat) (r1 : Bool) (p2 : Nat) (r2 : Bool) (g : Game),
      (resetG p1 r1 p2 r2 g).gameOver = false) := by
  refine ⟨?_, ?_, ?_⟩
  · intro g d p r h
    rw [move_true_gameOver g d p r h]
    rw [← canMove_eq_false_iff]
    constructor
    · intro hh
      cases hcm : canMove (move d p r g).fst.board
      · rfl
      · rw [hcm] at hh; simp at hh
    · intro hh
      rw [hh]
      rfl
  · exact fun g d p r h => move_of_gameOver g d p r h
  · intro p1 r1 p2 r2 g
    rfl

theorem claim_C2_witness :
    (move "left" 0 false (mkTestGame ([some 0, none, some 0, some 0] ++
      List.replicate 12 none))).fst.gameOver = false ∧
    move "left" 3 true { mkTestGame emptyBoard with gameOver := true } =
      ({ mkTestGame emptyBoard with gameOver := true }, false) := by
  constructor
  · have hiff := claim_C2.1 (mkTestGame ([some 0, none, some 0, some 0] ++
      List.replicate 12 none)) "left" 0 false (by decide)
    cases hg : (move "left" 0 false (mkTestGame ([some 0, none, some 0, some 0] ++
      List.replicate 12 none))).fst.gameOver
    · rfl
    · have hrhs := hiff.mp hg
      revert hrhs
      decide
  · exact claim_C2.2.1 _ "left" 3 true rfl

/-- C3: an accepted move increases the score by exactly the sum of
`2^newKind` over the merge records it emitted (`newKind` being the
merged cell's incremented kind); a rejected move leaves the score
unchanged. -/
theorem claim_C3 :
    (∀ (g : Game) (d : String) (p : Nat) (r : Bool), g.board.length = 16 →
      (move d p r g).snd = true →
      (move d p r g).fst.score =
        g.score + mergeScore (move d p r g).fst.metaMerges) ∧
    (∀ (g : Game) (d : String) (p : Nat) (r : Bool), g.board.length = 16 →
      (move d p r g).snd = false → (move d p r g).fst.score = g.score) := by
  constructor
  · intro g d p r hb h
    exact (move_true_full g d p r hb h).2.2.2.2.2.1
  · intro g d p r hb h
    rcases move_false_spec g d p r h with ⟨_, he⟩ | ⟨_, _, he⟩ | ⟨_, g2, happ, hbe, he⟩
    · rw [he]
    · rw [he, clearScratch_score]
    · obtain ⟨ls, hls, hg2⟩ := applyDir_eq_some happ
      rw [hg2] at hbe
      rw [he, hg2]
      exact (nochange_spec g ls hb hls hbe).2.1

theorem claim_C3_witness :
    (move "left" 0 false (mkTestGame ([some 0, none, some 0, some 0] ++
      List.replicate 12 none))).fst.score =
      (mkTestGame ([some 0, none, some 0, some 0] ++ List.replicate 12 none)).score +
        mergeScore (move "left" 0 false (mkTestGame ([some 0, none, some 0, some 0] ++
          List.replicate 12 none))).fst.metaMerges ∧
    (move "up" 0 false (mkTestGame ([some 0, none, some 0, some 0] ++
      List.replicate 12 none))).fst.score =
      (mkTestGame ([some 0, none, some 0, some 0] ++ List.replicate 12 none)).score := by
  constructor
  · exact claim_C3.1 _ "left" 0 false (by decide) (by decide)
  · exact claim_C3.2 _ "up" 0 false (by decide) (by decide)

/-- C5 fails on the code: a rejected no-change move (and likewise an
invalid direction) still clears the animation metadata retained from
the previous move: `move` resets `movedTiles`, `mergedTiles`,
`animationMetadata` and `newTile` before the direction dispatch and the
no-change comparison, so a rejected move does not leave them unchanged. -/
theorem claim_C5_counterexample :
    (move "left" 0 false { mkTestGame ([some 0] ++ List.replicate 15 none) with
      metaMoves := [(1, 0)], movedTiles := [0], newTile := some 7 }).snd = false ∧
    { mkTestGame ([some 0] ++ List.replicate 15 none) with
      metaMoves := [(1, 0)], movedTiles := [0], newTile := some 7 }.metaMoves = [(1, 0)] ∧
    (move "left" 0 false { mkTestGame ([some 0] ++ List.replicate 15 none) with
      metaMoves := [(1, 0)], movedTiles := [0], newTile := some 7 }).fst.metaMoves = [] ∧
    (move "left" 0 false { mkTestGame ([some 0] ++ List.replicate 15 none) with
      metaMoves := [(1, 0)], movedTiles := [0], newTile := some 7 }).fst.movedTiles = [] := by
  refine ⟨by decide, by decide, by decide, by decide⟩

/-- C5 amended: every rejection returns `false` and leaves the board,
score, move count, `gameOver` and `won` unchanged and spawns no tile;
when `gameOver` is already true the state is entirely untouched, and an
invalid direction yields exactly the scratch-cleared state.  However the
per-move animation scratch (`movedTiles`, `mergedTiles`,
`animationMetadata`, `newTile`, the board snapshots) is re-initialised
at `move` entry rather than retained. -/
theorem claim_C5 :
    (∀ (g : Game) (d : String) (p : Nat) (r : Bool),
      g.gameOver = true → move d p r g = (g, false)) ∧
    (∀ (g : Game) (d : String) (p : Nat) (r : Bool), g.board.length = 16 →
      (move d p r g).snd = false →
      (move d p r g).fst.board = g.board ∧
      (move d p r g).fst.score = g.score ∧
      (move d p r g).fst.moves = g.moves ∧
      (move d p r g).fst.gameOver = g.gameOver ∧
      (move d p r g).fst.won = g.won ∧
      ((move d p r g).fst.newTile = none ∨ (move d p r g).fst = g)) ∧
    (∀ (g : Game) (d : String) (p : Nat) (r : Bool),
      g.gameOver = false →
      ¬d = "left" → ¬d = "right" → ¬d = "up" → ¬d = "down" →
      move d p r g = (clearScratch g, false)) := by
  refine ⟨?_, ?_, ?_⟩
  · exact fun g d p r h => move_of_gameOver g d p r h
  · intro g d p r hb h
    rcases move_false_spec g d p r h with ⟨_, he⟩ | ⟨_, happ, he⟩ | ⟨hgo, g2, happ, hbe, he⟩
    · rw [he]
      exact ⟨rfl, rfl, rfl, rfl, rfl, Or.inr rfl⟩
    · rw [he]
      exact ⟨clearScratch_board g, clearScratch_score g, clearScratch_moves g,
        clearScratch_gameOver g, clearScratch_won g, Or.inl (clearScratch_newTile g)⟩
    · obtain ⟨ls, hls, hg2⟩ := applyDir_eq_some happ
      rw [hg2] at hbe
      rw [he, hg2]
      refine ⟨(nochange_spec g ls hb hls hbe).1, (nochange_spec g ls hb hls hbe).2.1,
        ?_, ?_, ?_, Or.inl ?_⟩
      · rw [runLines_moves, clearScratch_moves]
      · rw [runLines_gameOver, clearScratch_gameOver]
      · rw [runLines_won, clearScratch_won]
      · rw [runLines_newTile, clearScratch_newTile]
  · exact fun g d p r hgo h1 h2 h3 h4 => move_of_invalid g d p r hgo h1 h2 h3 h4

theorem claim_C5_witness :
    move "left" 2 true { mkTestGame emptyBoard with gameOver := true } =
      ({ mkTestGame emptyBoard with gameOver := true }, false) ∧
    (move "up" 0 false (mkTestGame ([some 0, none, some 0, some 0] ++
      List.replicate 12 none))).fst.score =
      (mkTestGame ([some 0, none, some 0, some 0] ++ List.replicate 12 none)).score ∧
    move "bogus" 0 false (mkTestGame emptyBoard) =
      (clearScratch (mkTestGame emptyBoard), false) := by
  refine ⟨?_, ?_, ?_⟩
  · exact claim_C5.1 _ "left" 2 true rfl
  · exact (claim_C5.2.1 _ "up" 0 false (by decide) (by decide)).2.1
  · exact claim_C5.2.2 _ "bogus" 0 false rfl (by decide) (by decide) (by decide) (by decide)

/-! ### C9: leaderboard storage update -/

theorem prevC9_score (x : Entry) (hx : x ∈ prevC9) : 1 ≤ x.score := by
  rw [prevC9, List.mem_map] at hx
  obtain ⟨k, hk, rfl⟩ := hx
  rw [List.mem_range] at hk
  simp
  omega

theorem prevC9_nodup : prevC9.Nodup := by
  rw [prevC9]
  refine List.Nodup.map ?_ (List.nodup_range 5000)
  intro a b hab
  simpa using congrArg Entry.id hab

theorem newC9_notMem_prev : newC9 ∉ prevC9 := by
  intro h
  rw [prevC9, List.mem_map] at h
  obtain ⟨k, hk, he⟩ := h
  rw [List.mem_range] at hk
  have := congrArg Entry.id he
  simp [newC9] at this
  omega

/-- C9 fails on the code: with a full store of 5000 records, posting a
new record truncates by *rank*, not by recency — here the new entry is
the most recent of the 5001 records, yet (having the lowest score) it
is the one dropped, so the stored set is not "the previous set with the
new entry appended, truncated to the 5000 most-recent records". -/
theorem claim_C9_counterexample :
    prevC9.length = 5000 ∧
    (prevC9 ++ [newC9]).length = 5001 ∧
    newC9 ∉ storeUpdate prevC9 newC9 := by
  have hlenp : prevC9.length = 5000 := by simp [prevC9]
  have hlen : (prevC9 ++ [newC9]).length = 5001 := by simp [hlenp]
  refine ⟨hlenp, hlen, ?_⟩
  intro hmem0
  set s := sortEntries (prevC9 ++ [newC9]) with hs
  have hmem : newC9 ∈ s.take MAX_ENTRIES := by
    rw [hs]
    exact hmem0
  have hperm : s.Perm (prevC9 ++ [newC9]) := List.perm_insertionSort entryRel _
  have hsort : List.Sorted entryRel s := List.sorted_insertionSort entryRel _
  have hslen : s.length = 5001 := by rw [hperm.length_eq, hlen]
  have hnd : s.Nodup := by
    refine hperm.nodup_iff.mpr ?_
    rw [List.nodup_append]
    exact ⟨prevC9_nodup, List.nodup_singleton _,
      fun a ha hb => newC9_notMem_prev (by rwa [List.mem_singleton.mp hb] at ha)⟩
  have hsplit : s.take MAX_ENTRIES ++ s.drop MAX_ENTRIES = s := List.take_append_drop _ _
  have hdlen : (s.drop MAX_ENTRIES).length = 1 := by
    rw [List.length_drop, hslen]
    rfl
  obtain ⟨x, hx⟩ : ∃ x, s.drop MAX_ENTRIES = [x] := by
    cases hd : s.drop MAX_ENTRIES with
    | nil => rw [hd] at hdlen; simp at hdlen
    | cons a l =>
      rw [hd] at hdlen
      simp at hdlen
      exact ⟨a, by rw [hdlen]⟩
  have hnd2 : (s.take MAX_ENTRIES ++ s.drop MAX_ENTRIES).Nodup := by
    rw [hsplit]; exact hnd
  have hdisj := (List.nodup_append.mp hnd2).2.2
  have hxmem : x ∈ s := by
    have : x ∈ s.drop MAX_ENTRIES := by rw [hx]; simp
    exact List.drop_subset _ _ this
  have hxne : x ≠ newC9 := by
    intro he
    subst he
    exact hdisj hmem (by rw [hx]; simp)
  have hxprev : x ∈ prevC9 := by
    have : x ∈ prevC9 ++ [newC9] := hperm.subset hxmem
    rcases List.mem_append.mp this with h | h
    · exact h
    · exact absurd (List.mem_singleton.mp h) hxne
  have hxscore : 1 ≤ x.score := prevC9_score x hxprev
  have hpw : List.Pairwise entryRel (s.take MAX_ENTRIES ++ s.drop MAX_ENTRIES) := by
    rw [hsplit]; exact hsort
  have hle : entryRel newC9 x := by
    have hap := (List.pairwise_append.mp hpw).2.2
    exact hap newC9 hmem x (by rw [hx]; simp)
  rw [entryRel, entryLE] at hle
  have hne : x.score ≠ newC9.score := by
    simp [newC9]
    omega
  rw [if_pos hne] at hle
  simp [newC9] at hle
  omega

/-- C9 amended: after a successful POST, the stored record list is the
previous records plus the new entry, reordered by rank (score
descending, then moves ascending, then creation time ascending) and
truncated to the `MAX_ENTRIES = 5000` *top-ranked* records (not the
most recent): it is sorted by rank, has length `min (n+1) 5000`, is a
permutation of append while under capacity, and every kept record ranks
at or above every dropped one.  (The write itself goes through a
temp-file-and-rename; file-system atomicity is outside this model.) -/
theorem claim_C9 :
    ∀ (prev : List Entry) (e : Entry),
      List.Sorted entryRel (storeUpdate prev e) ∧
      (storeUpdate prev e).length = min (prev.length + 1) MAX_ENTRIES ∧
      (prev.length + 1 ≤ MAX_ENTRIES → (storeUpdate prev e).Perm (prev ++ [e])) ∧
      (∀ x ∈ storeUpdate prev e, ∀ y ∈ prev ++ [e], y ∉ storeUpdate prev e →
        entryRel x y) := by
  intro prev e
  have hperm : (sortEntries (prev ++ [e])).Perm (prev ++ [e]) :=
    List.perm_insertionSort entryRel _
  have hsort : List.Sorted entryRel (sortEntries (prev ++ [e])) :=
    List.sorted_insertionSort entryRel _
  have hslen : (sortEntries (prev ++ [e])).length = prev.length + 1 := by
    rw [hperm.length_eq]
    simp
  refine ⟨?_, ?_, ?_, ?_⟩
  · exact List.Pairwise.sublist (List.take_sublist _ _) hsort
  · rw [storeUpdate, List.length_take, hslen, Nat.min_comm]
  · intro hcap
    rw [storeUpdate, List.take_of_length_le (by rw [hslen]; exact hcap)]
    exact hperm
  · intro x hxmem y hymem hynot
    have hysort : y ∈ sortEntries (prev ++ [e]) := hperm.symm.subset hymem
    have hsplit : (sortEntries (prev ++ [e])).take MAX_ENTRIES ++
        (sortEntries (prev ++ [e])).drop MAX_ENTRIES = sortEntries (prev ++ [e]) :=
      List.take_append_drop _ _
    have hydrop : y ∈ (sortEntries (prev ++ [e])).drop MAX_ENTRIES := by
      rw [← hsplit] at hysort
      rcases List.mem_append.mp hysort with h | h
      · exact absurd h hynot
      · exact h
    have hpw : List.Pairwise entryRel ((sortEntries (prev ++ [e])).take MAX_ENTRIES ++
        (sortEntries (prev ++ [e])).drop MAX_ENTRIES) := by
      rw [hsplit]; exact hsort
    exact (List.pairwise_append.mp hpw).2.2 x hxmem y hydrop

theorem claim_C9_witness :
    (storeUpdate [] newC9).Perm ([] ++ [newC9]) ∧
    (storeUpdate [] newC9).length = min (List.length ([] : List Entry) + 1) MAX_ENTRIES := by
  constructor
  · exact (claim_C9 [] newC9).2.2.1 (by decide)
  · exact (claim_C9 [] newC9).2.1

theorem c6Run_append (a b : List (String × Nat × Bool)) (g : Game) :
    c6Run (a ++ b) g = c6Run b (c6Run a g) := by
  simp [c6Run, List.foldl_append]

theorem c6Run_reachable (l : List (String × Nat × Bool)) (g : Game)
    (h : Reachable g) : Reachable (c6Run l g) := by
  induction l generalizing g with
  | nil => exact h
  | cons s l2 ih => exact ih _ (Reachable.step g s.1 s.2.1 s.2.2 h)

set_option maxRecDepth 400000 in
theorem c6_chunk0 : c6Run c6T0 (newGame 0 false 0 false) = c6G1 := by
  decide

set_option maxRecDepth 400000 in
theorem c6_chunk1 : c6Run c6T1 c6G1 = c6G2 := by
  decide

set_option maxRecDepth 400000 in
theorem c6_chunk2 : c6Run c6T2 c6G2 = c6G3 := by
  decide

set_option maxRecDepth 400000 in
theorem c6_chunk3 : c6Run c6T3 c6G3 = c6G4 := by
  decide

set_option maxRecDepth 400000 in
theorem c6_chunk4 : c6Run c6T4 c6G4 = c6G5 := by
  decide

set_option maxRecDepth 400000 in
theorem c6_chunk5 : c6Run c6T5 c6G5 = c6G6 := by
  decide

set_option maxRecDepth 400000 in
theorem c6_chunk6 : c6Run c6T6 c6G6 = c6G7 := by
  decide

set_option maxRecDepth 400000 in
theorem c6_chunk7 : c6Run c6T7 c6G7 = c6G8 := by
  decide

set_option maxRecDepth 400000 in
theorem c6_chunk8 : c6Run c6T8 c6G8 = c6G9 := by
  decide

set_option maxRecDepth 400000 in
theorem c6_chunk9 : c6Run c6T9 c6G9 = c6G10 := by
  decide

set_option maxRecDepth 400000 in
theorem c6_chunk10 : c6Run c6T10 c6G10 = c6G11 := by
  decide

set_option maxRecDepth 400000 in
theorem c6_chunk11 : c6Run c6T11 c6G11 = c6G12 := by
  decide

set_option maxRecDepth 400000 in
theorem c6_chunk12 : c6Run c6T12 c6G12 = c6G13 := by
  decide

set_option maxRecDepth 400000 in
theorem c6_chunk13 : c6Run c6T13 c6G13 = c6G14 := by
  decide

set_option maxRecDepth 400000 in
theorem c6_chunk14 : c6Run c6T14 c6G14 = c6G15 := by
  decide

set_option maxRecDepth 400000 in
theorem c6_chunk15 : c6Run c6T15 c6G15 = c6G16 := by
  decide

set_option maxRecDepth 400000 in
theorem c6_chunk16 : c6Run c6T16 c6G16 = c6G17 := by
  decide

set_option maxRecDepth 400000 in
theorem c6_chunk17 : c6Run c6T17 c6G17 = c6G18 := by
  decide

set_option maxRecDepth 400000 in
theorem c6_chunk18 : c6Run c6T18 c6G18 = c6G19 := by
  decide

set_option maxRecDepth 400000 in
theorem c6_chunk19 : c6Run c6T19 c6G19 = c6G20 := by
  decide

set_option maxRecDepth 400000 in
theorem c6_chunk20 : c6Run c6T20 c6G20 = c6G21 := by
  decide

set_option maxRecDepth 400000 in
theorem c6_chunk21 : c6Run c6T21 c6G21 = c6G22 := by
  decide

set_option maxRecDepth 400000 in
theorem c6_chunk22 : c6Run c6T22 c6G22 = c6G23 := by
  decide

set_option maxRecDepth 400000 in
theorem c6_chunk23 : c6Run c6T23 c6G23 = c6G24 := by
  decide

set_option maxRecDepth 400000 in
theorem c6_chunk24 : c6Run c6T24 c6G24 = c6G25 := by
  decide

set_option maxRecDepth 400000 in
theorem c6_chunk25 : c6Run c6T25 c6G25 = c6G26 := by
  decide

set_option maxRecDepth 400000 in
theorem c6_chunk26 : c6Run c6T26 c6G26 = c6G27 := by
  decide

set_option maxRecDepth 400000 in
theorem c6_chunk27 : c6Run c6T27 c6G27 = c6G28 := by
  decide

theorem c6_final_reachable : Reachable c6G28 := by
  have h0 : Reachable (newGame 0 false 0 false) := Reachable.init 0 false 0 false
  have h1 : Reachable c6G1 := by rw [← c6_chunk0]; exact c6Run_reachable _ _ h0
  have h2 : Reachable c6G2 := by rw [← c6_chunk1]; exact c6Run_reachable _ _ h1
  have h3 : Reachable c6G3 := by rw [← c6_chunk2]; exact c6Run_reachable _ _ h2
  have h4 : Reachable c6G4 := by rw [← c6_chunk3]; exact c6Run_reachable _ _ h3
  have h5 : Reachable c6G5 := by rw [← c6_chunk4]; exact c6Run_reachable _ _ h4
  have h6 : Reachable c6G6 := by rw [← c6_chunk5]; exact c6Run_reachable _ _ h5
  have h7 : Reachable c6G7 := by rw [← c6_chunk6]; exact c6Run_reachable _ _ h6
  have h8 : Reachable c6G8 := by rw [← c6_chunk7]; exact c6Run_reachable _ _ h7
  have h9 : Reachable c6G9 := by rw [← c6_chunk8]; exact c6Run_reachable _ _ h8
  have h10 : Reachable c6G10 := by rw [← c6_chunk9]; exact c6Run_reachable _ _ h9
  have h11 : Reachable c6G11 := by rw [← c6_chunk10]; exact c6Run_reachable _ _ h10
  have h12 : Reachable c6G12 := by rw [← c6_chunk11]; exact c6Run_reachable _ _ h11
  have h13 : Reachable c6G13 := by rw [← c6_chunk12]; exact c6Run_reachable _ _ h12
  have h14 : Reachable c6G14 := by rw [← c6_chunk13]; exact c6Run_reachable _ _ h13
  have h15 : Reachable c6G15 := by rw [← c6_chunk14]; exact c6Run_reachable _ _ h14
  have h16 : Reachable c6G16 := by rw [← c6_chunk15]; exact c6Run_reachable _ _ h15
  have h17 : Reachable c6G17 := by rw [← c6_chunk16]; exact c6Run_reachable _ _ h16
  have h18 : Reachable c6G18 := by rw [← c6_chunk17]; exact c6Run_reachable _ _ h17
  have h19 : Reachable c6G19 := by rw [← c6_chunk18]; exact c6Run_reachable _ _ h18
  have h20 : Reachable c6G20 := by rw [← c6_chunk19]; exact c6Run_reachable _ _ h19
  have h21 : Reachable c6G21 := by rw [← c6_chunk20]; exact c6Run_reachable _ _ h20
  have h22 : Reachable c6G22 := by rw [← c6_chunk21]; exact c6Run_reachable _ _ h21
  have h23 : Reachable c6G23 := by rw [← c6_chunk22]; exact c6Run_reachable _ _ h22
  have h24 : Reachable c6G24 := by rw [← c6_chunk23]; exact c6Run_reachable _ _ h23
  have h25 : Reachable c6G25 := by rw [← c6_chunk24]; exact c6Run_reachable _ _ h24
  have h26 : Reachable c6G26 := by rw [← c6_chunk25]; exact c6Run_reachable _ _ h25
  have h27 : Reachable c6G27 := by rw [← c6_chunk26]; exact c6Run_reachable _ _ h26
  have h28 : Reachable c6G28 := by rw [← c6_chunk27]; exact c6Run_reachable _ _ h27
  exact h28

/-- C6 fails on the code: the engine never caps kinds at the win rank
(10, Ginger Root Beer).  A concrete 1118-move game, reachable from
initialization through `move` alone (with explicit spawn randomness),
ends with a kind-11 tile (Cran-Raspberry) on the board. -/
theorem claim_C6_counterexample :
    ∃ g : Game, Reachable g ∧ ∃ i v : Nat, cell g.board i = some v ∧ 10 < v :=
  ⟨c6G28, c6_final_reachable, 0, 11, by decide, by decide⟩

/-- C6 amended: board kinds are unbounded by the win rank — merging two
adjacent kind-`k` tiles always yields kind `k + 1` and scores
`2^(k+1)`, for every `k` including the win rank; reaching the win rank
only sets `won`. -/
theorem claim_C6 (g : Game) (rr k : Nat) (_hr : rr < 4)
    (h0 : cell g.board (4 * rr) = some k)
    (h1 : cell g.board (4 * rr + 1) = some k)
    (h2 : cell g.board (4 * rr + 2) = none)
    (h3 : cell g.board (4 * rr + 3) = none) :
    cell (processLineG g [4 * rr, 4 * rr + 1, 4 * rr + 2, 4 * rr + 3]).board (4 * rr) =
      some (k + 1) ∧
    (processLineG g [4 * rr, 4 * rr + 1, 4 * rr + 2, 4 * rr + 3]).score =
      g.score + 2 ^ (k + 1) := by
  have l0 : 4 * rr < g.board.length := cell_some_lt h0
  have he : lineEntries g.board [4 * rr, 4 * rr + 1, 4 * rr + 2, 4 * rr + 3] =
      [(k, 4 * rr), (k, 4 * rr + 1)] := by
    simp [lineEntries, h0, h1, h2, h3]
  have hc : collapse [(k, 4 * rr), (k, 4 * rr + 1)]
      [4 * rr, 4 * rr + 1, 4 * rr + 2, 4 * rr + 3] =
      ⟨[k + 1], 2 ^ (k + 1), [4 * rr], [4 * rr],
        [(4 * rr + 1, 4 * rr)], [⟨(4 * rr, 4 * rr + 1), 4 * rr, k + 1⟩]⟩ := by
    rw [collapse_two_eq, collapse_nil]
    have hne : (4 * rr + 1) ≠ 4 * rr := by omega
    simp [hne]
  have hboard : (processLineG g [4 * rr, 4 * rr + 1, 4 * rr + 2, 4 * rr + 3]).board =
      writeLine g.board [4 * rr, 4 * rr + 1, 4 * rr + 2, 4 * rr + 3] [k + 1] := by
    show writeLine g.board _ (collapse (lineEntries g.board _) _).vals = _
    rw [he, hc]
  constructor
  · rw [hboard]
    show cell ((((g.board.set (4 * rr) (some (k + 1))).set (4 * rr + 1) none).set
      (4 * rr + 2) none).set (4 * rr + 3) none) (4 * rr) = some (k + 1)
    rw [cell_set_ne (by omega), cell_set_ne (by omega), cell_set_ne (by omega)]
    exact cell_set_self l0 _
  · show g.score + (collapse (lineEntries g.board _) _).score = g.score + 2 ^ (k + 1)
    rw [he, hc]

theorem claim_C6_witness :
    cell (processLineG (mkTestGame ([some 10, some 10] ++ List.replicate 14 none))
      [4 * 0, 4 * 0 + 1, 4 * 0 + 2, 4 * 0 + 3]).board (4 * 0) = some (10 + 1) :=
  (claim_C6 (mkTestGame ([some 10, some 10] ++ List.replicate 14 none)) 0 10
    (by decide) (by decide) (by decide) (by decide) (by decide)).1


/-- C8: for every accepted move with at least one merge (whatever the
ghost-tile count `gc` at render time), the spawn phase is scheduled
strictly after the end of the contact window (`slideCompleteDelay`) and
strictly before the merge window ends
(`slideCompleteDelay + MERGE_MS`); in particular some tile slid, so the
contact window is the real slide window. -/
theorem claim_C8 :
    ∀ (g : Game) (d : String) (p : Nat) (r : Bool) (gc : Nat),
      g.board.length = 16 →
      (move d p r g).snd = true →
      (move d p r g).fst.mergedTiles ≠ [] →
      ((!(move d p r g).fst.movedTiles.isEmpty || decide (0 < gc)) = true ∧
        slideCompleteDelay (!(move d p r g).fst.movedTiles.isEmpty || decide (0 < gc))
            (!(move d p r g).fst.mergedTiles.isEmpty) <
          spawnDelay (!(move d p r g).fst.movedTiles.isEmpty || decide (0 < gc))
            (!(move d p r g).fst.mergedTiles.isEmpty) ∧
        spawnDelay (!(move d p r g).fst.movedTiles.isEmpty || decide (0 < gc))
            (!(move d p r g).fst.mergedTiles.isEmpty) <
          slideCompleteDelay (!(move d p r g).fst.movedTiles.isEmpty || decide (0 < gc))
            (!(move d p r g).fst.mergedTiles.isEmpty) + MERGE_MS) := by
  intro g d p r gc hb h hmg
  have hmv : (move d p r g).fst.movedTiles ≠ [] :=
    (move_true_full g d p r hb h).2.2.2.2.2.2.2.2.2 hmg
  have hs : (!(move d p r g).fst.movedTiles.isEmpty || decide (0 < gc)) = true := by
    cases hmt : (move d p r g).fst.movedTiles with
    | nil => exact absurd hmt hmv
    | cons a l => simp [hmt]
  have hm : (!(move d p r g).fst.mergedTiles.isEmpty) = true := by
    cases hmt : (move d p r g).fst.mergedTiles with
    | nil => exact absurd hmt hmg
    | cons a l => simp [hmt]
  rw [hs, hm]
  exact ⟨rfl, by decide, by decide⟩

theorem claim_C8_witness :
    slideCompleteDelay
        (!(move "left" 0 false (mkTestGame ([some 0, none, some 0, some 0] ++
          List.replicate 12 none))).fst.movedTiles.isEmpty || decide (0 < 1))
        (!(move "left" 0 false (mkTestGame ([some 0, none, some 0, some 0] ++
          List.replicate 12 none))).fst.mergedTiles.isEmpty) <
      spawnDelay
        (!(move "left" 0 false (mkTestGame ([some 0, none, some 0, some 0] ++
          List.replicate 12 none))).fst.movedTiles.isEmpty || decide (0 < 1))
        (!(move "left" 0 false (mkTestGame ([some 0, none, some 0, some 0] ++
          List.replicate 12 none))).fst.mergedTiles.isEmpty) :=
  (claim_C8 (mkTestGame ([some 0, none, some 0, some 0] ++ List.replicate 12 none))
    "left" 0 false 1 (by decide) (by decide) (by decide)).2.1

/-- C10: for every accepted move (on a 16-cell board), the emitted
animation metadata is well-formed: every `moves`/`merges` origin held a
non-null tile on the pre-move board, every destination holds a non-null
tile on the post-compaction board (before the spawn), each origin
appears in at most one `moves` record, and a `moves` record is emitted
only when origin and destination differ. -/
theorem claim_C10 :
    ∀ (g : Game) (d : String) (p : Nat) (r : Bool), g.board.length = 16 →
      (move d p r g).snd = true →
      ((∀ pr ∈ (move d p r g).fst.metaMoves,
          cell g.board pr.1 ≠ none ∧
          cell (move d p r g).fst.boardAfterMove pr.2 ≠ none ∧
          pr.1 ≠ pr.2) ∧
        (∀ m ∈ (move d p r g).fst.metaMerges,
          cell g.board m.src.1 ≠ none ∧ cell g.board m.src.2 ≠ none ∧
          cell (move d p r g).fst.boardAfterMove m.dst ≠ none) ∧
        ((move d p r g).fst.metaMoves.map Prod.fst).Nodup) := by
  intro g d p r hb h
  obtain ⟨_, _, _, _, _, _, nd, pm, pg, _⟩ := move_true_full g d p r hb h
  refine ⟨?_, ?_, nd⟩
  · intro pr hpr
    obtain ⟨hne, ⟨v, hv⟩, ⟨x, hx⟩⟩ := pm pr hpr
    exact ⟨by rw [hv]; simp, by rw [hx]; simp, hne⟩
  · intro m hm
    obtain ⟨⟨v, hv1, hv2, _⟩, hdst⟩ := pg m hm
    exact ⟨by rw [hv1]; simp, by rw [hv2]; simp, by rw [hdst]; simp⟩

theorem claim_C10_witness :
    ((move "left" 0 false (mkTestGame ([some 0, none, some 0, some 0] ++
      List.replicate 12 none))).fst.metaMoves.map Prod.fst).Nodup :=
  (claim_C10 (mkTestGame ([some 0, none, some 0, some 0] ++ List.replicate 12 none))
    "left" 0 false (by decide) (by decide)).2.2

end Zevia
